import Mathlib

/-!
Shallow embedding of the orchestration engine of `modern_onap_so`
(`src/orchestrator/workflows/`): the five workflow routines
(Provision/Deploy, Delete, Update, Scale, Configure), their activities, and
the Store updates they perform.

Modelling conventions:
* Remote-call and Store-write outcomes are supplied by an environment
  structure per workflow (fault injection); everything else is translated
  directly from the Python source.
* `asyncio.gather` over a homogeneous fan-out is determinized to propagate
  the first failure in list order (`gatherE`).
* Each run returns the workflow result (`Except String ρ`, where `.error`
  means an exception escaped the routine), the ordered trace of events
  (store-write attempts, remote calls, compensation calls, sleeps), the
  final Store record, and whether the outer `except` branch ran.
-/

/-- `DeploymentStatus` from `models/deployment.py`. -/
inductive Status where
  | pending
  | in_progress
  | completed
  | failed
  | deleting
  | deleted
deriving DecidableEq

/-- A value stored in the open-ended `resources` mapping: provider ids are
strings, `server_ids` is a list of strings. -/
inductive RVal where
  | str (s : String)
  | strList (l : List String)
deriving DecidableEq

/-- The `resources` dict: an association list with Python-dict update
semantics (first binding of a key is the live one). -/
def Resc := List (String × RVal)
deriving instance DecidableEq for Resc

/-- `d.get(k)` (returns `none` when the key is absent). -/
def Resc.get? (r : Resc) (k : String) : Option RVal :=
  (r.find? (fun p => p.1 = k)).map (·.2)

/-- Python truthiness of `d.get(k)`: absent, `""`, and `[]` are falsy. -/
def Resc.truthy (r : Resc) (k : String) : Bool :=
  match r.get? k with
  | none => false
  | some (.str s) => s ≠ ""
  | some (.strList l) => l ≠ []

/-- `d.get("server_ids", [])`, read as a list of ids. -/
def Resc.serverIds (r : Resc) : List String :=
  match r.get? "server_ids" with
  | some (.strList l) => l
  | _ => []

/-- `d.get(k)` read as a string (`""` when absent or non-string). -/
def Resc.getStr (r : Resc) (k : String) : String :=
  match r.get? k with
  | some (.str s) => s
  | _ => ""

/-- Set one key, Python style: replace in place if present, else append. -/
def Resc.setKey (r : Resc) (k : String) (v : RVal) : Resc :=
  match r with
  | [] => [(k, v)]
  | (k', v') :: rest =>
    if k' = k then (k, v) :: rest else (k', v') :: Resc.setKey rest k v

/-- `d.update(other)`: apply `setKey` for each binding of `other` in order. -/
def Resc.updateWith (r other : Resc) : Resc :=
  other.foldl (fun acc p => acc.setKey p.1 p.2) r

/-- The structured `error` dict written with a `FAILED` status.  Each
workflow sets a definite subset of these keys; the others stay `none`. -/
structure ErrInfo where
  message : String
  type : Option String := none
  phase : Option String := none
  operation : Option String := none
  ansible_execution_id : Option String := none
  return_code : Option Int := none
deriving DecidableEq

/-- Observable events of a workflow run, in program order. -/
inductive Event where
  /-- An `update_deployment_status_activity` attempt; `ok` tells whether the
  Store accepted it. -/
  | writeStatus (st : Status) (resources : Option Resc) (error : Option ErrInfo) (ok : Bool)
  | remoteCreateNetwork
  | remoteCreateSubnet
  | remoteCreateServer (idx : Nat)
  | remotePollServer (round : Nat) (idx : Nat)
  | remoteDeleteServer (sid : String)
  | remoteDeleteNetwork (nid : String)
  | remoteResizeServer (sid : String)
  | remoteUpdateNetwork (nid : String)
  | remoteScaleOut (count : Nat)
  | remoteScaleIn (sids : List String)
  | resolveAddresses (sids : List String)
  | runPlaybook (path : String)
  /-- `rollback_resources_activity` invocation with its arguments. -/
  | rollbackInvoked (networkId : Option String) (serverIds : List String)
  | cleanupDeleteServer (sid : String) (ok : Bool)
  | cleanupDeleteNetwork (nid : String) (ok : Bool)
  | sleep (seconds : Nat)
deriving DecidableEq

/-- The deployment record as far as the engine writes it. -/
structure StoreRec where
  status : Status
  resources : Resc
  error : Option ErrInfo
deriving DecidableEq

/-- `DeploymentRepository.update`: only the supplied fields change. -/
def StoreRec.apply (s : StoreRec) (st : Status) (res : Option Resc)
    (err : Option ErrInfo) : StoreRec :=
  { status := st
    resources := res.getD s.resources
    error := match err with | some e => some e | none => s.error }

/-- World state threaded through a run: trace so far, Store record, and the
index of the next Store-write attempt (used for fault injection). -/
structure W where
  trace : List Event
  store : StoreRec
  writeIdx : Nat

def W.add (w : W) (es : List Event) : W := { w with trace := w.trace ++ es }

/-- One `update_deployment_status_activity` call.  `fault n = some m` makes
the `n`-th write attempt of the run raise `m` (deployment missing, DB down);
`none` lets it commit. -/
def doWrite (fault : Nat → Option String) (w : W) (st : Status)
    (res : Option Resc) (err : Option ErrInfo) : Except String Unit × W :=
  match fault w.writeIdx with
  | none =>
    (.ok (), { trace := w.trace ++ [.writeStatus st res err true]
               store := w.store.apply st res err
               writeIdx := w.writeIdx + 1 })
  | some m =>
    (.error m, { trace := w.trace ++ [.writeStatus st res err false]
                 store := w.store
                 writeIdx := w.writeIdx + 1 })

/-- `asyncio.gather` determinized: all results in order, or the first
failure in list order. -/
def gatherE : List (Except String α) → Except String (List α)
  | [] => .ok []
  | .ok a :: rest => (gatherE rest).map (a :: ·)
  | .error e :: _ => .error e

/-- Result of a workflow run: the routine's return value (`.error` = an
exception escaped the routine), the event trace, the final Store record, and
whether the routine's outer `except` branch executed. -/
structure RunOut (ρ : Type) where
  result : Except String ρ
  trace : List Event
  store : StoreRec
  caught : Bool

/-- Statuses of the store-write attempts of a trace, in order. -/
def writeStatuses (tr : List Event) : List Status :=
  tr.filterMap fun e =>
    match e with
    | .writeStatus st _ _ _ => some st
    | _ => none

/-- Arguments of the `rollback_resources_activity` invocations of a trace. -/
def rollbackCalls (tr : List Event) : List (Option String × List String) :=
  tr.filterMap fun e =>
    match e with
    | .rollbackInvoked n s => some (n, s)
    | _ => none

/-! ## Provision (deploy.py) -/

/-- Environment for one `DeploymentWorkflow.execute` run: outcome of each
remote call and of each Store-write attempt.  `pollOutcomes r i` is the
status string `getServerStatus` reports for server `i` in poll round `r`
(or a raised exception). -/
structure DeployEnv where
  networkOutcome : Except String String
  subnetOutcome : Except String String
  vmOutcomes : Nat → Except String String
  pollOutcomes : Nat → Nat → Except String String
  storeFault : Nat → Option String

/-- `DeploymentWorkflowInput`, with the exact dict projections
`DeploymentWorkflow.execute` reads from `template` / `parameters`
(`.get` with the source's defaults). -/
structure DeployInput where
  deployment_id : String
  cloud_region : String
  tmpl_vm_count : Option Nat
  param_vm_count : Option Nat

/-- `parameters.get("vm_count", vm_config.get("count", 1))`. -/
def DeployInput.vmCount (i : DeployInput) : Nat :=
  i.param_vm_count.getD (i.tmpl_vm_count.getD 1)

/-- `DeploymentWorkflowResult` (models.py). -/
structure DeploymentWorkflowResult where
  deployment_id : String
  success : Bool
  network_id : Option String := none
  subnet_id : Option String := none
  server_ids : List String := []
  error : Option String := none
deriving DecidableEq

/-- `poll_vm_status_activity`: raises on a remote failure, raises
`"VM <id> entered ERROR state"` on status `ERROR`, else reports whether the
status is `ACTIVE`. -/
def pollActivity (env : DeployEnv) (r i : Nat) (sid : String) :
    Except String Bool :=
  match env.pollOutcomes r i with
  | .error e => .error e
  | .ok st =>
    if st = "ERROR" then .error ("VM " ++ sid ++ " entered ERROR state")
    else .ok (st = "ACTIVE")

/-- One gather of `poll_vm_status_activity` over all servers: an exception,
or whether every server is ready. -/
def pollRound (env : DeployEnv) (sids : List String) (r : Nat) :
    Except String Bool :=
  (gatherE ((List.range sids.length).map
      (fun i => pollActivity env r i (sids.getD i "")))).map
    (fun l => l.all (fun b => b))

def timeoutMsg : String := "VMs did not become ACTIVE within 300 seconds"

/-- The `for attempt in range(max_poll_attempts)` loop of
`DeploymentWorkflow.execute`, with `max_poll_attempts = 60` and
`poll_interval = 5`: returns the outcome, the number of poll rounds
executed, and the poll/sleep events.  The sleep is skipped after the final
attempt; exhausting the budget raises the timeout message (the loop's
`else` clause). -/
def pollLoop (env : DeployEnv) (sids : List String) :
    Nat → Nat → Except String Unit × Nat × List Event
  | 0, _ => (.error timeoutMsg, 0, [])
  | fuel + 1, attempt =>
    let evs := (List.range sids.length).map (Event.remotePollServer attempt)
    match pollRound env sids attempt with
    | .error m => (.error m, 1, evs)
    | .ok true => (.ok (), 1, evs)
    | .ok false =>
      if fuel = 0 then (.error timeoutMsg, 1, evs)
      else
        let rest := pollLoop env sids fuel (attempt + 1)
        (rest.1, rest.2.1 + 1, evs ++ [Event.sleep 5] ++ rest.2.2)

/-- The poll phase as `execute` enters it: 60 attempts starting at 0. -/
def pollPhase (env : DeployEnv) (sids : List String) :
    Except String Unit × Nat × List Event :=
  pollLoop env sids 60 0

/-- The `except` branch of `DeploymentWorkflow.execute`: invoke
`rollback_resources_activity` with the tracked `network_id` / `server_ids`
(the rollback's own failures are swallowed), then write `FAILED` with
`{message, type}` — this write is NOT guarded, so its failure escapes the
routine. -/
def deployExcept (env : DeployEnv) (input : DeployInput) (w : W)
    (nid sid : Option String) (sids : List String) (e : String) :
    RunOut DeploymentWorkflowResult :=
  let w := w.add [.rollbackInvoked nid sids]
  match doWrite env.storeFault w .failed none
      (some { message := e, type := some "Exception" }) with
  | (.error e2, w') =>
    { result := .error e2, trace := w'.trace, store := w'.store, caught := true }
  | (.ok _, w') =>
    { result := .ok { deployment_id := input.deployment_id, success := false
                      network_id := nid, subnet_id := sid
                      server_ids := sids, error := some e }
      trace := w'.trace, store := w'.store, caught := true }

/-- Step 5 of `DeploymentWorkflow.execute`: write the `resources` mapping
with status `COMPLETED`, falling into the `except` branch if that write
raises. -/
def deployFinish (env : DeployEnv) (input : DeployInput) (w : W)
    (nid sid : String) (sids : List String) :
    RunOut DeploymentWorkflowResult :=
  let resources : Resc :=
    [("network_id", .str nid), ("subnet_id", .str sid),
     ("server_ids", .strList sids)]
  match doWrite env.storeFault w .completed (some resources) none with
  | (.error e, w') =>
    deployExcept env input w' (some nid) (some sid) sids e
  | (.ok _, w') =>
    { result := .ok { deployment_id := input.deployment_id
                      success := true
                      network_id := some nid, subnet_id := some sid
                      server_ids := sids, error := none }
      trace := w'.trace, store := w'.store, caught := false }

/-- `DeploymentWorkflow.execute` (deploy.py).  Note: `network_id` is
assigned only after `create_network_activity` returns, so a subnet failure
leaves it `None`; `server_ids` is assigned only after the whole VM gather
succeeds, so a VM-creation failure leaves it `[]`. -/
def deployRun (env : DeployEnv) (input : DeployInput) (st0 : StoreRec) :
    RunOut DeploymentWorkflowResult :=
  let w0 : W := ⟨[], st0, 0⟩
  match doWrite env.storeFault w0 .in_progress none none with
  | (.error e, w) => deployExcept env input w none none [] e
  | (.ok _, w) =>
    let w := w.add [.remoteCreateNetwork]
    match env.networkOutcome with
    | .error e => deployExcept env input w none none [] e
    | .ok nid =>
      let w := w.add [.remoteCreateSubnet]
      match env.subnetOutcome with
      | .error e => deployExcept env input w none none [] e
      | .ok sid =>
        let n := input.vmCount
        let w := w.add ((List.range n).map Event.remoteCreateServer)
        match gatherE ((List.range n).map env.vmOutcomes) with
        | .error e => deployExcept env input w (some nid) (some sid) [] e
        | .ok sids =>
          let poll := pollPhase env sids
          let w := w.add poll.2.2
          match poll.1 with
          | .error e => deployExcept env input w (some nid) (some sid) sids e
          | .ok _ => deployFinish env input w nid sid sids

/-! ## Delete (delete.py) -/

/-- Environment for one `DeleteWorkflow.execute` run.  `deleteVmOutcomes i`
is the outcome of `delete_vm_activity` for the `i`-th listed server
(`some m` = it raised `m`, covering both a client failure and the
`"Failed to delete server"` path); `cleanup*` give the per-resource
outcomes inside `cleanup_orphaned_resources_activity` (always swallowed). -/
structure DeleteEnv where
  deleteVmOutcomes : Nat → Option String
  deleteNetOutcome : Option String
  cleanupVmOk : Nat → Bool
  cleanupNetOk : Bool
  storeFault : Nat → Option String

/-- `DeleteWorkflowInput` (models.py). -/
structure DeleteInput where
  deployment_id : String
  cloud_region : String
  resources : Resc

/-- `DeleteWorkflowResult` (models.py). -/
structure DeleteWorkflowResult where
  deployment_id : String
  success : Bool
  error : Option String := none
deriving DecidableEq

/-- `cleanup_orphaned_resources_activity`: attempt deletion of every listed
server id and the network id of the ORIGINAL `resources`, each failure
swallowed; never raises. -/
def cleanupEvents (env : DeleteEnv) (resources : Resc) : List Event :=
  ((resources.serverIds.zip (List.range resources.serverIds.length)).map
      (fun p => Event.cleanupDeleteServer p.1 (env.cleanupVmOk p.2)))
    ++ (if resources.truthy "network_id" then
          [Event.cleanupDeleteNetwork (resources.getStr "network_id")
            env.cleanupNetOk]
        else [])

/-- The `except` branch of `DeleteWorkflow.execute`: best-effort cleanup
over the original resource set, then a guarded `FAILED` write with
`{message, phase: "deletion"}`; always returns a failure result carrying
the triggering message. -/
def deleteExcept (env : DeleteEnv) (input : DeleteInput) (w : W)
    (e : String) : RunOut DeleteWorkflowResult :=
  let w := w.add (cleanupEvents env input.resources)
  let wr := doWrite env.storeFault w .failed none
    (some { message := e, phase := some "deletion" })
  { result := .ok { deployment_id := input.deployment_id, success := false
                    error := some e }
    trace := wr.2.trace, store := wr.2.store, caught := true }

/-- Step 4 of `DeleteWorkflow.execute`: write status `DELETED`, falling
into the `except` branch if that write raises. -/
def deleteFinish (env : DeleteEnv) (input : DeleteInput) (w : W) :
    RunOut DeleteWorkflowResult :=
  match doWrite env.storeFault w .deleted none none with
  | (.error e, w') => deleteExcept env input w' e
  | (.ok _, w') =>
    { result := .ok { deployment_id := input.deployment_id
                      success := true, error := none }
      trace := w'.trace, store := w'.store, caught := false }

/-- `DeleteWorkflow.execute` (delete.py). -/
def deleteRun (env : DeleteEnv) (input : DeleteInput) (st0 : StoreRec) :
    RunOut DeleteWorkflowResult :=
  let w0 : W := ⟨[], st0, 0⟩
  match doWrite env.storeFault w0 .in_progress none none with
  | (.error e, w) => deleteExcept env input w e
  | (.ok _, w) =>
    let sids := input.resources.serverIds
    let w := w.add (sids.map Event.remoteDeleteServer)
    match gatherE ((List.range sids.length).map
        (fun i => match env.deleteVmOutcomes i with
                  | some m => .error m
                  | none => .ok true)) with
    | .error e => deleteExcept env input w e
    | .ok _ =>
      let netStep :=
        if input.resources.truthy "network_id" then
          (some (input.resources.getStr "network_id"), env.deleteNetOutcome)
        else (none, none)
      let w := match netStep.1 with
               | some nid => w.add [.remoteDeleteNetwork nid]
               | none => w
      match netStep.2 with
      | some e => deleteExcept env input w e
      | none => deleteFinish env input w

/-! ## Update (update.py) -/

/-- Environment for one `UpdateWorkflow.execute` run.  The bodies of
`resize_vm_activity` and `update_network_activity` cannot fail in the
source (placeholder implementations), but entering the OpenStack client can
raise, so each activity carries an injectable outcome. -/
structure UpdateEnv where
  resizeOutcomes : Nat → Option String
  updateNetOutcome : Option String
  storeFault : Nat → Option String

/-- `UpdateWorkflowInput`, with `updated_parameters` projected to the two
keys the routine reads (`flavor`, `network_cidr`); Python truthiness
applies (`None` and `""` both skip the step). -/
structure UpdateInput where
  deployment_id : String
  cloud_region : String
  current_resources : Resc
  param_flavor : Option String
  param_network_cidr : Option String

def strTruthy : Option String → Bool
  | none => false
  | some s => s ≠ ""

/-- `UpdateWorkflowResult` (models.py). -/
structure UpdateWorkflowResult where
  deployment_id : String
  success : Bool
  updated_resources : Resc := []
  error : Option String := none
deriving DecidableEq

/-- The `except` branch of `UpdateWorkflow.execute`: guarded `FAILED` write
with `{message, phase: "update"}`, then a failure result with EMPTY
`updated_resources`. -/
def updateExcept (env : UpdateEnv) (input : UpdateInput) (w : W)
    (e : String) : RunOut UpdateWorkflowResult :=
  let wr := doWrite env.storeFault w .failed none
    (some { message := e, phase := some "update" })
  { result := .ok { deployment_id := input.deployment_id, success := false
                    updated_resources := [], error := some e }
    trace := wr.2.trace, store := wr.2.store, caught := true }

/-- `update_network_activity`: returns
`{network_id, subnet_id: "new-subnet-" + old}` (placeholder body). -/
def updateNetResult (nid sid : String) : Resc :=
  [("network_id", .str nid), ("subnet_id", .str ("new-subnet-" ++ sid))]

/-- Step 4 of `UpdateWorkflow.execute`: write the merged resources with
status `COMPLETED`, falling into the `except` branch if that write
raises. -/
def updateFinish (env : UpdateEnv) (input : UpdateInput) (w : W)
    (updated_resources : Resc) : RunOut UpdateWorkflowResult :=
  match doWrite env.storeFault w .completed (some updated_resources) none with
  | (.error e, w') => updateExcept env input w' e
  | (.ok _, w') =>
    { result := .ok { deployment_id := input.deployment_id
                      success := true
                      updated_resources := updated_resources
                      error := none }
      trace := w'.trace, store := w'.store, caught := false }

/-- `UpdateWorkflow.execute` (update.py). -/
def updateRun (env : UpdateEnv) (input : UpdateInput) (st0 : StoreRec) :
    RunOut UpdateWorkflowResult :=
  let w0 : W := ⟨[], st0, 0⟩
  match doWrite env.storeFault w0 .in_progress none none with
  | (.error e, w) => updateExcept env input w e
  | (.ok _, w) =>
    let sids := if strTruthy input.param_flavor then
                  input.current_resources.serverIds
                else []
    let w := w.add (sids.map Event.remoteResizeServer)
    match gatherE ((List.range sids.length).map
        (fun i => match env.resizeOutcomes i with
                  | some m => .error m
                  | none => .ok true)) with
    | .error e => updateExcept env input w e
    | .ok _ =>
      let doNet := strTruthy input.param_network_cidr
          && input.current_resources.truthy "network_id"
          && input.current_resources.truthy "subnet_id"
      let w := if doNet then
                 w.add [.remoteUpdateNetwork
                   (input.current_resources.getStr "network_id")]
               else w
      match (if doNet then env.updateNetOutcome else none) with
      | some e => updateExcept env input w e
      | none =>
        let updated_resources :=
          if doNet then
            input.current_resources.updateWith
              (updateNetResult (input.current_resources.getStr "network_id")
                (input.current_resources.getStr "subnet_id"))
          else input.current_resources
        updateFinish env input w updated_resources

/-! ## Scale (scaling/scale.py, scaling/activities.py) -/

/-- Environment for one `ScaleWorkflow.execute` run.  The bodies of
`scale_out_activity` / `scale_in_activity` are placeholder implementations
that cannot raise; `hashF` stands for Python's salted `hash` of the id
seed string. -/
structure ScaleEnv where
  hashF : String → Nat
  storeFault : Nat → Option String

/-- `ScaleWorkflowInput` (scaling/models.py). -/
structure ScaleInput where
  deployment_id : String
  current_count : Nat
  target_count : Nat
  min_count : Nat
  max_count : Option Nat
  resources : Resc
  cloud_region : String

/-- `ScaleWorkflowResult` (scaling/models.py). -/
structure ScaleWorkflowResult where
  success : Bool
  deployment_id : String
  initial_count : Nat
  final_count : Nat
  operation : String
  new_server_ids : List String := []
  removed_server_ids : List String := []
  error : Option String := none
deriving DecidableEq

/-- The server ids `scale_out_activity` generates:
`"server-" + str(hash(f"{cloud_region}-{i}") % 10000)` for each `i`. -/
def scaleOutIds (env : ScaleEnv) (region : String) (count : Nat) :
    List String :=
  (List.range count).map
    (fun i => "server-" ++
      toString (env.hashF (region ++ "-" ++ toString i) % 10000))

/-- `scale_in_activity`: re-check `len(server_ids) - count_to_remove >=
min_count`, then select the LAST `count_to_remove` ids
(`server_ids[-count_to_remove:]`).  Returns `.error msg` for the bound
violation, `.ok removed` otherwise; the body cannot raise. -/
def scaleInSelect (sids : List String) (countToRemove minCount : Nat) :
    Except String (List String) :=
  if (sids.length : Int) - (countToRemove : Int) < (minCount : Int) then
    .error ("Cannot remove " ++ toString countToRemove ++
      " VMs - would leave " ++
      toString ((sids.length : Int) - (countToRemove : Int)) ++
      " (min: " ++ toString minCount ++ ")")
  else
    .ok (sids.drop (sids.length - countToRemove))

/-- The outer `except` branch of `ScaleWorkflow.execute`: wrap the message,
attempt a `FAILED` write (swallowing its failure), return a failure result
with `operation = "none"`. -/
def scaleExcept (env : ScaleEnv) (input : ScaleInput) (w : W) (e : String) :
    RunOut ScaleWorkflowResult :=
  let msg := "Scaling workflow failed: " ++ e
  let wr := doWrite env.storeFault w .failed none (some { message := msg })
  { result := .ok { success := false, deployment_id := input.deployment_id
                    initial_count := input.current_count
                    final_count := input.current_count
                    operation := "none", error := some msg }
    trace := wr.2.trace, store := wr.2.store, caught := true }

/-- `ScaleWorkflow.execute` (scaling/scale.py).  Note that the routine
performs NO `IN_PROGRESS` write and its `COMPLETED` writes carry no
`resources`. -/
def scaleRun (env : ScaleEnv) (input : ScaleInput) (st0 : StoreRec) :
    RunOut ScaleWorkflowResult :=
  let w0 : W := ⟨[], st0, 0⟩
  if input.target_count < input.min_count then
    { result := .ok { success := false, deployment_id := input.deployment_id
                      initial_count := input.current_count
                      final_count := input.current_count
                      operation := "none"
                      error := some ("Target count (" ++
                        toString input.target_count ++
                        ") is below min_count (" ++
                        toString input.min_count ++ ")") }
      trace := [], store := st0, caught := false }
  else if (match input.max_count with
           | some mx => decide (mx < input.target_count)
           | none => false) then
    { result := .ok { success := false, deployment_id := input.deployment_id
                      initial_count := input.current_count
                      final_count := input.current_count
                      operation := "none"
                      error := some ("Target count (" ++
                        toString input.target_count ++
                        ") exceeds max_count (" ++
                        toString (input.max_count.getD 0) ++ ")") }
      trace := [], store := st0, caught := false }
  else if input.current_count < input.target_count then
    -- scale-out; the activity always succeeds in the source
    let countToAdd := input.target_count - input.current_count
    let newIds := scaleOutIds env input.cloud_region countToAdd
    let w := w0.add [.remoteScaleOut countToAdd]
    match doWrite env.storeFault w .completed none none with
    | (.error e, w') => scaleExcept env input w' e
    | (.ok _, w') =>
      { result := .ok { success := true, deployment_id := input.deployment_id
                        initial_count := input.current_count
                        final_count := input.target_count
                        operation := "scale-out", new_server_ids := newIds
                        error := none }
        trace := w'.trace, store := w'.store, caught := false }
  else if input.target_count < input.current_count then
    -- scale-in
    let countToRemove := input.current_count - input.target_count
    let sids := input.resources.serverIds
    let w := w0.add [.remoteScaleIn sids]
    match scaleInSelect sids countToRemove input.min_count with
    | .error msg =>
      match doWrite env.storeFault w .failed none
          (some { message := msg, operation := some "scale-in" }) with
      | (.error e, w') => scaleExcept env input w' e
      | (.ok _, w') =>
        { result := .ok { success := false
                          deployment_id := input.deployment_id
                          initial_count := input.current_count
                          final_count := input.current_count
                          operation := "scale-in", error := some msg }
          trace := w'.trace, store := w'.store, caught := false }
    | .ok removed =>
      match doWrite env.storeFault w .completed none none with
      | (.error e, w') => scaleExcept env input w' e
      | (.ok _, w') =>
        { result := .ok { success := true
                          deployment_id := input.deployment_id
                          initial_count := input.current_count
                          final_count := input.target_count
                          operation := "scale-in"
                          removed_server_ids := removed, error := none }
          trace := w'.trace, store := w'.store, caught := false }
  else
    { result := .ok { success := true, deployment_id := input.deployment_id
                      initial_count := input.current_count
                      final_count := input.current_count
                      operation := "none", error := none }
      trace := [], store := st0, caught := false }

/-! ## Configure (configuration/configure.py, configuration/activities.py) -/

/-- `PlaybookStatus` (clients/ansible/client.py). -/
inductive PlaybookStatus where
  | running
  | successful
  | failed
  | timeout
  | not_found
deriving DecidableEq

/-- Rendering of a `PlaybookStatus` inside an f-string. -/
def playbookStatusStr : PlaybookStatus → String
  | .running => "PlaybookStatus.RUNNING"
  | .successful => "PlaybookStatus.SUCCESSFUL"
  | .failed => "PlaybookStatus.FAILED"
  | .timeout => "PlaybookStatus.TIMEOUT"
  | .not_found => "PlaybookStatus.NOT_FOUND"

/-- The dict `run_ansible_activity` returns. -/
structure AnsibleRes where
  execution_id : String
  status : PlaybookStatus
  return_code : Int
  error : Option String

/-- Environment for one `ConfigureWorkflow.execute` run.
`get_vm_addresses_activity` is a deterministic placeholder in the source
(`"10.0.0.{5+i}"` per server) and cannot fail, so only the Ansible call
and the Store writes are injectable. -/
structure ConfigureEnv where
  ansibleOutcome : Except String AnsibleRes
  storeFault : Nat → Option String

/-- `ConfigureWorkflowInput` (configuration/models.py). -/
structure ConfigureInput where
  deployment_id : String
  playbook_path : String
  limit : Option String
  resources : Resc

/-- `ConfigureWorkflowResult` (configuration/models.py). -/
structure ConfigureWorkflowResult where
  success : Bool
  deployment_id : String
  execution_id : Option String := none
  configured_hosts : List String := []
  error : Option String := none
deriving DecidableEq

/-- The placeholder addresses `get_vm_addresses_activity` yields, in
insertion order. -/
def vmAddresses (sids : List String) : List String :=
  (List.range sids.length).map (fun i => "10.0.0." ++ toString (5 + i))

/-- Message of the `TypeError` raised when `ConfigureWorkflow.execute`
calls `update_deployment_status_activity` with the `extra_metadata`
keyword argument that the activity does not declare (text paraphrased
without quote characters). -/
def extraMetadataTypeErr : String :=
  "update_deployment_status_activity() got an unexpected keyword argument extra_metadata"

/-- The outer `except` branch of `ConfigureWorkflow.execute`: wrap the
message, attempt a `FAILED` write (swallowing its failure), return a
failure result. -/
def configureExcept (env : ConfigureEnv) (input : ConfigureInput) (w : W)
    (e : String) : RunOut ConfigureWorkflowResult :=
  let msg := "Configuration workflow failed: " ++ e
  let wr := doWrite env.storeFault w .failed none (some { message := msg })
  { result := .ok { success := false, deployment_id := input.deployment_id
                    execution_id := none, configured_hosts := []
                    error := some msg }
    trace := wr.2.trace, store := wr.2.store, caught := true }

/-- `ConfigureWorkflow.execute` (configuration/configure.py).  On a
successful playbook run the `COMPLETED` status update is called with an
`extra_metadata` keyword the activity does not accept, so it raises
`TypeError` before touching the Store and the run falls into the outer
`except` branch. -/
def configureRun (env : ConfigureEnv) (input : ConfigureInput)
    (st0 : StoreRec) : RunOut ConfigureWorkflowResult :=
  let w0 : W := ⟨[], st0, 0⟩
  let sids := input.resources.serverIds
  if sids = [] then
    { result := .ok { success := false, deployment_id := input.deployment_id
                      execution_id := none, configured_hosts := []
                      error := some "No VMs found in deployment resources" }
      trace := [], store := st0, caught := false }
  else
    let w := w0.add [.resolveAddresses sids]
    -- the configured-hosts list (`vmAddresses sids`) is only used by the
    -- success return, which the `extra_metadata` TypeError makes unreachable
    let w := w.add [.runPlaybook input.playbook_path]
    match env.ansibleOutcome with
    | .error e => configureExcept env input w e
    | .ok res =>
      if res.status = .successful then
        -- TypeError at the COMPLETED write: no Store interaction happens
        configureExcept env input w extraMetadataTypeErr
      else
        let errMsg :=
          match res.error with
          | some s =>
            if s ≠ "" then s
            else "Ansible playbook failed with status: " ++
              playbookStatusStr res.status
          | none => "Ansible playbook failed with status: " ++
              playbookStatusStr res.status
        match doWrite env.storeFault w .failed none
            (some { message := errMsg
                    ansible_execution_id := some res.execution_id
                    return_code := some res.return_code }) with
        | (.error e, w') => configureExcept env input w' e
        | (.ok _, w') =>
          { result := .ok { success := false
                            deployment_id := input.deployment_id
                            execution_id := some res.execution_id
                            configured_hosts := [], error := some errMsg }
            trace := w'.trace, store := w'.store, caught := false }

/-- A result is structured: the routine returned (did not raise) and a
failed result carries an error message. -/
def Structured {ρ : Type} (out : Except String ρ) (success : ρ → Bool)
    (errOf : ρ → Option String) : Prop :=
  ∃ r, out = Except.ok r ∧ (success r = false → (errOf r).isSome)
/-- Extract the server id of a cleanup attempt event. -/
def svExtract : Event → Option String := fun e =>
  match e with
  | .cleanupDeleteServer sid _ => some sid
  | _ => none

/-- Extract the network id of a cleanup attempt event. -/
def netExtract : Event → Option String := fun e =>
  match e with
  | .cleanupDeleteNetwork nid _ => some nid
  | _ => none

/-- Server ids targeted by cleanup attempts in a trace, in order. -/
def cleanupServerTargets (tr : List Event) : List String :=
  tr.filterMap svExtract

/-- Network ids targeted by cleanup attempts in a trace, in order. -/
def cleanupNetworkTargets (tr : List Event) : List String :=
  tr.filterMap netExtract
def Event.isSleep : Event → Bool
  | .sleep _ => true
  | _ => false

/-! ## Characterization lemmas for the `except` helpers -/

theorem doWrite_eq (f : Nat → Option String) (w : W) (st : Status)
    (res : Option Resc) (err : Option ErrInfo) :
    doWrite f w st res err =
      ((match f w.writeIdx with
        | none => Except.ok ()
        | some m => Except.error m),
       { trace := w.trace ++ [.writeStatus st res err (f w.writeIdx).isNone]
         store := match f w.writeIdx with
                  | none => w.store.apply st res err
                  | some _ => w.store
         writeIdx := w.writeIdx + 1 }) := by
  unfold doWrite
  cases f w.writeIdx <;> simp

theorem deployExcept_out (env : DeployEnv) (input : DeployInput) (w : W)
    (nid sid : Option String) (sids : List String) (e : String) :
    deployExcept env input w nid sid sids e =
      { result :=
          match env.storeFault w.writeIdx with
          | some m => .error m
          | none => .ok { deployment_id := input.deployment_id
                          success := false, network_id := nid
                          subnet_id := sid, server_ids := sids
                          error := some e }
        trace := w.trace ++ [.rollbackInvoked nid sids,
          .writeStatus .failed none
            (some { message := e, type := some "Exception" })
            (env.storeFault w.writeIdx).isNone]
        store :=
          match env.storeFault w.writeIdx with
          | none => w.store.apply .failed none
              (some { message := e, type := some "Exception" })
          | some _ => w.store
        caught := true } := by
  cases hf : env.storeFault w.writeIdx <;>
    simp [deployExcept, doWrite, W.add, hf]

theorem deleteExcept_out (env : DeleteEnv) (input : DeleteInput) (w : W)
    (e : String) :
    deleteExcept env input w e =
      { result := .ok { deployment_id := input.deployment_id
                        success := false, error := some e }
        trace := w.trace ++ cleanupEvents env input.resources ++
          [.writeStatus .failed none
            (some { message := e, phase := some "deletion" })
            (env.storeFault w.writeIdx).isNone]
        store :=
          match env.storeFault w.writeIdx with
          | none => w.store.apply .failed none
              (some { message := e, phase := some "deletion" })
          | some _ => w.store
        caught := true } := by
  cases hf : env.storeFault w.writeIdx <;>
    simp [deleteExcept, doWrite, W.add, hf]

theorem updateExcept_out (env : UpdateEnv) (input : UpdateInput) (w : W)
    (e : String) :
    updateExcept env input w e =
      { result := .ok { deployment_id := input.deployment_id
                        success := false, updated_resources := []
                        error := some e }
        trace := w.trace ++ [.writeStatus .failed none
          (some { message := e, phase := some "update" })
          (env.storeFault w.writeIdx).isNone]
        store :=
          match env.storeFault w.writeIdx with
          | none => w.store.apply .failed none
              (some { message := e, phase := some "update" })
          | some _ => w.store
        caught := true } := by
  cases hf : env.storeFault w.writeIdx <;>
    simp [updateExcept, doWrite, W.add, hf]

theorem scaleExcept_out (env : ScaleEnv) (input : ScaleInput) (w : W)
    (e : String) :
    scaleExcept env input w e =
      { result := .ok { success := false
                        deployment_id := input.deployment_id
                        initial_count := input.current_count
                        final_count := input.current_count
                        operation := "none"
                        error := some ("Scaling workflow failed: " ++ e) }
        trace := w.trace ++ [.writeStatus .failed none
          (some { message := "Scaling workflow failed: " ++ e })
          (env.storeFault w.writeIdx).isNone]
        store :=
          match env.storeFault w.writeIdx with
          | none => w.store.apply .failed none
              (some { message := "Scaling workflow failed: " ++ e })
          | some _ => w.store
        caught := true } := by
  cases hf : env.storeFault w.writeIdx <;>
    simp [scaleExcept, doWrite, W.add, hf]

theorem configureExcept_out (env : ConfigureEnv) (input : ConfigureInput)
    (w : W) (e : String) :
    configureExcept env input w e =
      { result := .ok { success := false
                        deployment_id := input.deployment_id
                        execution_id := none, configured_hosts := []
                        error := some ("Configuration workflow failed: " ++ e) }
        trace := w.trace ++ [.writeStatus .failed none
          (some { message := "Configuration workflow failed: " ++ e })
          (env.storeFault w.writeIdx).isNone]
        store :=
          match env.storeFault w.writeIdx with
          | none => w.store.apply .failed none
              (some { message := "Configuration workflow failed: " ++ e })
          | some _ => w.store
        caught := true } := by
  cases hf : env.storeFault w.writeIdx <;>
    simp [configureExcept, doWrite, W.add, hf]

/-! ## Run-level lemmas shared by the claims -/


theorem deployFinish_out (env : DeployEnv) (input : DeployInput) (w : W)
    (nid sid : String) (sids : List String) :
    deployFinish env input w nid sid sids =
      match env.storeFault w.writeIdx with
      | none =>
        { result := .ok { deployment_id := input.deployment_id
                          success := true
                          network_id := some nid, subnet_id := some sid
                          server_ids := sids, error := none }
          trace := w.trace ++ [.writeStatus .completed
            (some [("network_id", .str nid), ("subnet_id", .str sid),
                   ("server_ids", .strList sids)]) none true]
          store := w.store.apply .completed
            (some [("network_id", .str nid), ("subnet_id", .str sid),
                   ("server_ids", .strList sids)]) none
          caught := false }
      | some m =>
        deployExcept env input
          { trace := w.trace ++ [.writeStatus .completed
              (some [("network_id", .str nid), ("subnet_id", .str sid),
                     ("server_ids", .strList sids)]) none false]
            store := w.store, writeIdx := w.writeIdx + 1 }
          (some nid) (some sid) sids m := by
  cases hf : env.storeFault w.writeIdx <;>
    simp [deployFinish, doWrite, hf]

theorem deleteFinish_out (env : DeleteEnv) (input : DeleteInput) (w : W) :
    deleteFinish env input w =
      match env.storeFault w.writeIdx with
      | none =>
        { result := .ok { deployment_id := input.deployment_id
                          success := true, error := none }
          trace := w.trace ++ [.writeStatus .deleted none none true]
          store := w.store.apply .deleted none none
          caught := false }
      | some m =>
        deleteExcept env input
          { trace := w.trace ++ [.writeStatus .deleted none none false]
            store := w.store, writeIdx := w.writeIdx + 1 } m := by
  cases hf : env.storeFault w.writeIdx <;>
    simp [deleteFinish, doWrite, hf]

theorem updateFinish_out (env : UpdateEnv) (input : UpdateInput) (w : W)
    (updated_resources : Resc) :
    updateFinish env input w updated_resources =
      match env.storeFault w.writeIdx with
      | none =>
        { result := .ok { deployment_id := input.deployment_id
                          success := true
                          updated_resources := updated_resources
                          error := none }
          trace := w.trace ++ [.writeStatus .completed
            (some updated_resources) none true]
          store := w.store.apply .completed (some updated_resources) none
          caught := false }
      | some m =>
        updateExcept env input
          { trace := w.trace ++ [.writeStatus .completed
              (some updated_resources) none false]
            store := w.store, writeIdx := w.writeIdx + 1 } m := by
  cases hf : env.storeFault w.writeIdx <;>
    simp [updateFinish, doWrite, hf]

theorem deployExcept_trace (env : DeployEnv) (input : DeployInput) (w : W)
    (nid sid : Option String) (sids : List String) (e : String) :
    ∃ rest, (deployExcept env input w nid sid sids e).trace =
      w.trace ++ rest := by
  rw [deployExcept_out]
  exact ⟨_, rfl⟩

theorem deployFinish_trace (env : DeployEnv) (input : DeployInput) (w : W)
    (nid sid : String) (sids : List String) :
    ∃ rest, (deployFinish env input w nid sid sids).trace =
      w.trace ++ rest := by
  rw [deployFinish_out]
  cases env.storeFault w.writeIdx
  · exact ⟨_, rfl⟩
  · rename_i m
    obtain ⟨rest, hr⟩ := deployExcept_trace env input
      { trace := w.trace ++ [.writeStatus .completed
          (some [("network_id", .str nid), ("subnet_id", .str sid),
                 ("server_ids", .strList sids)]) none false]
        store := w.store, writeIdx := w.writeIdx + 1 }
      (some nid) (some sid) sids m
    exact ⟨_, by simpa using hr⟩

theorem deleteExcept_trace (env : DeleteEnv) (input : DeleteInput) (w : W)
    (e : String) :
    ∃ rest, (deleteExcept env input w e).trace = w.trace ++ rest := by
  rw [deleteExcept_out]
  exact ⟨_, List.append_assoc _ _ _⟩

theorem deleteFinish_trace (env : DeleteEnv) (input : DeleteInput) (w : W) :
    ∃ rest, (deleteFinish env input w).trace = w.trace ++ rest := by
  rw [deleteFinish_out]
  cases env.storeFault w.writeIdx
  · exact ⟨_, rfl⟩
  · rename_i m
    obtain ⟨rest, hr⟩ := deleteExcept_trace env input
      { trace := w.trace ++ [.writeStatus .deleted none none false]
        store := w.store, writeIdx := w.writeIdx + 1 } m
    exact ⟨_, by simpa using hr⟩

theorem updateExcept_trace (env : UpdateEnv) (input : UpdateInput) (w : W)
    (e : String) :
    ∃ rest, (updateExcept env input w e).trace = w.trace ++ rest := by
  rw [updateExcept_out]
  exact ⟨_, rfl⟩

theorem updateFinish_trace (env : UpdateEnv) (input : UpdateInput) (w : W)
    (updated_resources : Resc) :
    ∃ rest, (updateFinish env input w updated_resources).trace =
      w.trace ++ rest := by
  rw [updateFinish_out]
  cases env.storeFault w.writeIdx
  · exact ⟨_, rfl⟩
  · rename_i m
    obtain ⟨rest, hr⟩ := updateExcept_trace env input
      { trace := w.trace ++ [.writeStatus .completed
          (some updated_resources) none false]
        store := w.store, writeIdx := w.writeIdx + 1 } m
    exact ⟨_, by simpa using hr⟩

theorem deployExcept_head (env : DeployEnv) (input : DeployInput) (w : W)
    (nid sid : Option String) (sids : List String) (e : String) (x : Event)
    (h : w.trace.head? = some x) :
    (deployExcept env input w nid sid sids e).trace.head? = some x := by
  obtain ⟨rest, hr⟩ := deployExcept_trace env input w nid sid sids e
  rw [hr, List.head?_append, h]
  rfl

theorem deployFinish_head (env : DeployEnv) (input : DeployInput) (w : W)
    (nid sid : String) (sids : List String) (x : Event)
    (h : w.trace.head? = some x) :
    (deployFinish env input w nid sid sids).trace.head? = some x := by
  obtain ⟨rest, hr⟩ := deployFinish_trace env input w nid sid sids
  rw [hr, List.head?_append, h]
  rfl

theorem deleteExcept_head (env : DeleteEnv) (input : DeleteInput) (w : W)
    (e : String) (x : Event) (h : w.trace.head? = some x) :
    (deleteExcept env input w e).trace.head? = some x := by
  obtain ⟨rest, hr⟩ := deleteExcept_trace env input w e
  rw [hr, List.head?_append, h]
  rfl

theorem deleteFinish_head (env : DeleteEnv) (input : DeleteInput) (w : W)
    (x : Event) (h : w.trace.head? = some x) :
    (deleteFinish env input w).trace.head? = some x := by
  obtain ⟨rest, hr⟩ := deleteFinish_trace env input w
  rw [hr, List.head?_append, h]
  rfl

theorem updateExcept_head (env : UpdateEnv) (input : UpdateInput) (w : W)
    (e : String) (x : Event) (h : w.trace.head? = some x) :
    (updateExcept env input w e).trace.head? = some x := by
  obtain ⟨rest, hr⟩ := updateExcept_trace env input w e
  rw [hr, List.head?_append, h]
  rfl

theorem updateFinish_head (env : UpdateEnv) (input : UpdateInput) (w : W)
    (updated_resources : Resc) (x : Event) (h : w.trace.head? = some x) :
    (updateFinish env input w updated_resources).trace.head? = some x := by
  obtain ⟨rest, hr⟩ := updateFinish_trace env input w updated_resources
  rw [hr, List.head?_append, h]
  rfl

theorem deployRun_first_event (env : DeployEnv) (input : DeployInput)
    (st0 : StoreRec) :
    (deployRun env input st0).trace.head? =
      some (.writeStatus .in_progress none none (env.storeFault 0).isNone) := by
  simp only [deployRun, doWrite_eq]
  cases h0 : env.storeFault 0
  case some m =>
    simp only [h0, Option.isNone_some]
    apply deployExcept_head
    rfl
  case none =>
    simp only [h0, Option.isNone_none]
    cases hn : env.networkOutcome
    case error e =>
      simp only [hn]
      apply deployExcept_head
      rfl
    case ok nid =>
      simp only [hn]
      cases hs : env.subnetOutcome
      case error e =>
        simp only [hs]
        apply deployExcept_head
        rfl
      case ok sid =>
        simp only [hs]
        cases hg : gatherE ((List.range input.vmCount).map env.vmOutcomes)
        case error e =>
          simp only [hg]
          apply deployExcept_head
          rfl
        case ok sids =>
          simp only [hg]
          cases hp : (pollPhase env sids).1
          case error e =>
            simp only [hp]
            apply deployExcept_head
            rfl
          case ok u =>
            simp only [hp]
            apply deployFinish_head
            rfl

theorem deleteRun_first_event (env : DeleteEnv) (input : DeleteInput)
    (st0 : StoreRec) :
    (deleteRun env input st0).trace.head? =
      some (.writeStatus .in_progress none none (env.storeFault 0).isNone) := by
  simp only [deleteRun, doWrite_eq]
  cases h0 : env.storeFault 0
  case some m =>
    simp only [h0, Option.isNone_some]
    apply deleteExcept_head
    rfl
  case none =>
    simp only [h0, Option.isNone_none]
    cases hg : gatherE ((List.range input.resources.serverIds.length).map
        (fun i => match env.deleteVmOutcomes i with
                  | some m => Except.error m
                  | none => Except.ok true))
    case error e =>
      simp only [hg]
      apply deleteExcept_head
      rfl
    case ok l =>
      simp only [hg]
      cases ht : input.resources.truthy "network_id"
      case false =>
        simp only [ht, Bool.false_eq_true, if_false]
        apply deleteFinish_head
        rfl
      case true =>
        simp only [ht, if_true]
        cases hno : env.deleteNetOutcome
        case none =>
          simp only [hno]
          apply deleteFinish_head
          rfl
        case some e =>
          simp only [hno]
          apply deleteExcept_head
          rfl

theorem updateRun_first_event (env : UpdateEnv) (input : UpdateInput)
    (st0 : StoreRec) :
    (updateRun env input st0).trace.head? =
      some (.writeStatus .in_progress none none (env.storeFault 0).isNone) := by
  simp only [updateRun, doWrite_eq]
  cases h0 : env.storeFault 0
  case some m =>
    simp only [h0, Option.isNone_some]
    apply updateExcept_head
    rfl
  case none =>
    simp only [h0, Option.isNone_none]
    cases hg : gatherE ((List.range (if strTruthy input.param_flavor then
        input.current_resources.serverIds else []).length).map
        (fun i => match env.resizeOutcomes i with
                  | some m => Except.error m
                  | none => Except.ok true))
    case error e =>
      simp only [hg]
      apply updateExcept_head
      rfl
    case ok l =>
      simp only [hg]
      cases hd : strTruthy input.param_network_cidr
          && input.current_resources.truthy "network_id"
          && input.current_resources.truthy "subnet_id"
      case false =>
        simp only [hd, Bool.false_eq_true, if_false]
        apply updateFinish_head
        rfl
      case true =>
        simp only [hd, if_true]
        cases hno : env.updateNetOutcome
        case none =>
          simp only [hno]
          apply updateFinish_head
          rfl
        case some e =>
          simp only [hno]
          apply updateExcept_head
          rfl

theorem scaleRun_no_in_progress (env : ScaleEnv) (input : ScaleInput)
    (st0 : StoreRec) :
    Status.in_progress ∉ writeStatuses (scaleRun env input st0).trace := by
  simp only [scaleRun, doWrite_eq]
  split_ifs with hA hB hC hD
  · simp [writeStatuses]
  · simp [writeStatuses]
  · cases h0 : env.storeFault 0 <;>
      simp [h0, scaleExcept_out, writeStatuses, W.add]
  · cases hsel : scaleInSelect input.resources.serverIds
        (input.current_count - input.target_count) input.min_count <;>
      cases h0 : env.storeFault 0 <;>
        simp [hsel, h0, scaleExcept_out, writeStatuses, W.add]
  · simp [writeStatuses]

theorem configureRun_no_in_progress (env : ConfigureEnv)
    (input : ConfigureInput) (st0 : StoreRec) :
    Status.in_progress ∉ writeStatuses (configureRun env input st0).trace := by
  simp only [configureRun]
  split_ifs with hE
  · simp [writeStatuses]
  · cases ha : env.ansibleOutcome with
    | error e =>
      cases h0 : env.storeFault 0 <;>
        simp [ha, h0, configureExcept_out, writeStatuses, W.add]
    | ok res =>
      by_cases hst : res.status = .successful
      · cases h0 : env.storeFault 0 <;>
          simp [ha, hst, h0, configureExcept_out, writeStatuses, W.add]
      · simp only [ha, doWrite_eq]
        cases h0 : env.storeFault 0 <;>
          simp [hst, h0, configureExcept_out, writeStatuses, W.add]

/-! ## Claim C2 -/

/-- C2, amended: Provision, Delete and Update perform, as the very first
event of their runs (hence before any remote resource call), a Store write
attempt setting `IN_PROGRESS`; Scale and Configure never write
`IN_PROGRESS` at all — every status their Store writes carry is a terminal
one. -/
theorem workflows_first_write_amended :
    (∀ (env : DeployEnv) (input : DeployInput) (st0 : StoreRec),
      (deployRun env input st0).trace.head? =
        some (.writeStatus .in_progress none none (env.storeFault 0).isNone)) ∧
    (∀ (env : DeleteEnv) (input : DeleteInput) (st0 : StoreRec),
      (deleteRun env input st0).trace.head? =
        some (.writeStatus .in_progress none none (env.storeFault 0).isNone)) ∧
    (∀ (env : UpdateEnv) (input : UpdateInput) (st0 : StoreRec),
      (updateRun env input st0).trace.head? =
        some (.writeStatus .in_progress none none (env.storeFault 0).isNone)) ∧
    (∀ (env : ScaleEnv) (input : ScaleInput) (st0 : StoreRec),
      Status.in_progress ∉ writeStatuses (scaleRun env input st0).trace) ∧
    (∀ (env : ConfigureEnv) (input : ConfigureInput) (st0 : StoreRec),
      Status.in_progress ∉ writeStatuses (configureRun env input st0).trace) :=
  ⟨deployRun_first_event, deleteRun_first_event, updateRun_first_event,
   scaleRun_no_in_progress, configureRun_no_in_progress⟩

/-- C2 counterexample: a successful scale-out run of the Scale workflow
performs exactly one durable Store write, and it sets `COMPLETED`, not
`IN_PROGRESS` — so not every workflow routine's first Store write sets
`IN_PROGRESS`. -/
theorem workflows_first_write_cex :
    writeStatuses (scaleRun
      { hashF := fun _ => 0, storeFault := fun _ => none }
      { deployment_id := "d1", current_count := 2, target_count := 4
        min_count := 1, max_count := none
        resources := [("server_ids", RVal.strList ["srv-a", "srv-b"])]
        cloud_region := "region-a" }
      { status := .completed
        resources := [("server_ids", RVal.strList ["srv-a", "srv-b"])]
        error := none }).trace = [Status.completed] ∧
    Status.completed ≠ Status.in_progress :=
  ⟨rfl, by decide⟩

theorem deleteExcept_no_raise (env : DeleteEnv) (input : DeleteInput)
    (w : W) (e : String) :
    Structured (deleteExcept env input w e).result (·.success) (·.error) := by
  rw [deleteExcept_out]
  exact ⟨_, rfl, fun _ => rfl⟩

theorem deleteFinish_no_raise (env : DeleteEnv) (input : DeleteInput)
    (w : W) :
    Structured (deleteFinish env input w).result (·.success) (·.error) := by
  rw [deleteFinish_out]
  cases env.storeFault w.writeIdx
  · exact ⟨_, rfl, fun hh => nomatch hh⟩
  · exact deleteExcept_no_raise _ _ _ _

theorem deleteRun_no_raise (env : DeleteEnv) (input : DeleteInput)
    (st0 : StoreRec) :
    Structured (deleteRun env input st0).result (·.success) (·.error) := by
  simp only [deleteRun, doWrite_eq]
  cases h0 : env.storeFault 0
  case some m =>
    simp only [h0]
    exact deleteExcept_no_raise _ _ _ _
  case none =>
    simp only [h0]
    cases hg : gatherE ((List.range input.resources.serverIds.length).map
        (fun i => match env.deleteVmOutcomes i with
                  | some m => Except.error m
                  | none => Except.ok true))
    case error e =>
      simp only [hg]
      exact deleteExcept_no_raise _ _ _ _
    case ok l =>
      simp only [hg]
      cases ht : input.resources.truthy "network_id"
      case false =>
        simp only [ht, Bool.false_eq_true, if_false]
        exact deleteFinish_no_raise _ _ _
      case true =>
        simp only [ht, if_true]
        cases hno : env.deleteNetOutcome
        case none =>
          simp only [hno]
          exact deleteFinish_no_raise _ _ _
        case some e =>
          simp only [hno]
          exact deleteExcept_no_raise _ _ _ _

theorem updateExcept_no_raise (env : UpdateEnv) (input : UpdateInput)
    (w : W) (e : String) :
    Structured (updateExcept env input w e).result (·.success) (·.error) := by
  rw [updateExcept_out]
  exact ⟨_, rfl, fun _ => rfl⟩

theorem updateFinish_no_raise (env : UpdateEnv) (input : UpdateInput)
    (w : W) (updated_resources : Resc) :
    Structured (updateFinish env input w updated_resources).result
      (·.success) (·.error) := by
  rw [updateFinish_out]
  cases env.storeFault w.writeIdx
  · exact ⟨_, rfl, fun hh => nomatch hh⟩
  · exact updateExcept_no_raise _ _ _ _

theorem updateRun_no_raise (env : UpdateEnv) (input : UpdateInput)
    (st0 : StoreRec) :
    Structured (updateRun env input st0).result (·.success) (·.error) := by
  simp only [updateRun, doWrite_eq]
  cases h0 : env.storeFault 0
  case some m =>
    simp only [h0]
    exact updateExcept_no_raise _ _ _ _
  case none =>
    simp only [h0]
    cases hg : gatherE ((List.range (if strTruthy input.param_flavor then
        input.current_resources.serverIds else []).length).map
        (fun i => match env.resizeOutcomes i with
                  | some m => Except.error m
                  | none => Except.ok true))
    case error e =>
      simp only [hg]
      exact updateExcept_no_raise _ _ _ _
    case ok l =>
      simp only [hg]
      cases hd : strTruthy input.param_network_cidr
          && input.current_resources.truthy "network_id"
          && input.current_resources.truthy "subnet_id"
      case false =>
        simp only [hd, Bool.false_eq_true, if_false]
        exact updateFinish_no_raise _ _ _ _
      case true =>
        simp only [hd, if_true]
        cases hno : env.updateNetOutcome
        case none =>
          simp only [hno]
          exact updateFinish_no_raise _ _ _ _
        case some e =>
          simp only [hno]
          exact updateExcept_no_raise _ _ _ _

theorem scaleExcept_no_raise (env : ScaleEnv) (input : ScaleInput) (w : W)
    (e : String) :
    Structured (scaleExcept env input w e).result (·.success) (·.error) := by
  rw [scaleExcept_out]
  exact ⟨_, rfl, fun _ => rfl⟩

theorem scaleRun_no_raise (env : ScaleEnv) (input : ScaleInput)
    (st0 : StoreRec) :
    Structured (scaleRun env input st0).result (·.success) (·.error) := by
  simp only [scaleRun, doWrite_eq, W.add]
  split_ifs with hA hB hC hD
  · exact ⟨_, rfl, fun _ => rfl⟩
  · exact ⟨_, rfl, fun _ => rfl⟩
  · cases h0 : env.storeFault 0 with
    | some m =>
      simp only [h0]
      exact scaleExcept_no_raise _ _ _ _
    | none =>
      simp only [h0]
      exact ⟨_, rfl, fun hh => nomatch hh⟩
  · cases hsel : scaleInSelect input.resources.serverIds
        (input.current_count - input.target_count) input.min_count with
    | error msg =>
      simp only [hsel]
      cases h0 : env.storeFault 0 with
      | some m =>
        simp only [h0]
        exact scaleExcept_no_raise _ _ _ _
      | none =>
        simp only [h0]
        exact ⟨_, rfl, fun _ => rfl⟩
    | ok removed =>
      simp only [hsel]
      cases h0 : env.storeFault 0 with
      | some m =>
        simp only [h0]
        exact scaleExcept_no_raise _ _ _ _
      | none =>
        simp only [h0]
        exact ⟨_, rfl, fun hh => nomatch hh⟩
  · exact ⟨_, rfl, fun hh => nomatch hh⟩

theorem configureExcept_no_raise (env : ConfigureEnv)
    (input : ConfigureInput) (w : W) (e : String) :
    Structured (configureExcept env input w e).result (·.success)
      (·.error) := by
  rw [configureExcept_out]
  exact ⟨_, rfl, fun _ => rfl⟩

theorem configureRun_no_raise (env : ConfigureEnv) (input : ConfigureInput)
    (st0 : StoreRec) :
    Structured (configureRun env input st0).result (·.success) (·.error) := by
  simp only [configureRun, doWrite_eq, W.add]
  split_ifs with hE
  · exact ⟨_, rfl, fun _ => rfl⟩
  · cases ha : env.ansibleOutcome with
    | error e =>
      simp only [ha]
      exact configureExcept_no_raise _ _ _ _
    | ok res =>
      simp only [ha]
      by_cases hst : res.status = .successful
      · simp only [hst, if_true]
        exact configureExcept_no_raise _ _ _ _
      · simp only [hst, if_false]
        cases h0 : env.storeFault 0 with
        | some m =>
          simp only [h0]
          exact configureExcept_no_raise _ _ _ _
        | none =>
          simp only [h0]
          exact ⟨_, rfl, fun _ => rfl⟩

theorem deployExcept_no_raise_of (env : DeployEnv) (input : DeployInput)
    (w : W) (nid sid : Option String) (sids : List String) (e : String)
    (h : env.storeFault w.writeIdx = none) :
    Structured (deployExcept env input w nid sid sids e).result (·.success)
      (·.error) := by
  rw [deployExcept_out, h]
  exact ⟨_, rfl, fun _ => rfl⟩

theorem deployFinish_no_raise_of (env : DeployEnv) (input : DeployInput)
    (w : W) (nid sid : String) (sids : List String)
    (h : env.storeFault w.writeIdx = none) :
    Structured (deployFinish env input w nid sid sids).result (·.success)
      (·.error) := by
  rw [deployFinish_out, h]
  exact ⟨_, rfl, fun hh => nomatch hh⟩

theorem deployRun_no_raise_of_storeOk (env : DeployEnv)
    (input : DeployInput) (st0 : StoreRec)
    (h : ∀ n, env.storeFault n = none) :
    Structured (deployRun env input st0).result (·.success) (·.error) := by
  simp only [deployRun, doWrite_eq, W.add, h]
  cases hn : env.networkOutcome with
  | error e => exact deployExcept_no_raise_of _ _ _ _ _ _ _ (h _)
  | ok nid =>
    simp only [hn]
    cases hs : env.subnetOutcome with
    | error e => exact deployExcept_no_raise_of _ _ _ _ _ _ _ (h _)
    | ok sid =>
      simp only [hs]
      cases hg : gatherE ((List.range input.vmCount).map env.vmOutcomes) with
      | error e => exact deployExcept_no_raise_of _ _ _ _ _ _ _ (h _)
      | ok sids =>
        simp only [hg]
        cases hp : (pollPhase env sids).1 with
        | error e => exact deployExcept_no_raise_of _ _ _ _ _ _ _ (h _)
        | ok u =>
          simp only [hp]
          exact deployFinish_no_raise_of _ _ _ _ _ _ (h _)

/-! ## Claim C3 -/

/-- C3, amended: Delete, Update, Scale, and Configure return a structured
result (success flag, and an error string whenever `success` is false) on
every input and environment, never letting an exception escape; Provision
does the same provided the Store writes succeed — but (see the
counterexample) it propagates the Store's exception when the write
recording the `FAILED` status itself raises. -/
theorem workflows_no_raise_amended :
    (∀ (env : DeleteEnv) (input : DeleteInput) (st0 : StoreRec),
      Structured (deleteRun env input st0).result (·.success) (·.error)) ∧
    (∀ (env : UpdateEnv) (input : UpdateInput) (st0 : StoreRec),
      Structured (updateRun env input st0).result (·.success) (·.error)) ∧
    (∀ (env : ScaleEnv) (input : ScaleInput) (st0 : StoreRec),
      Structured (scaleRun env input st0).result (·.success) (·.error)) ∧
    (∀ (env : ConfigureEnv) (input : ConfigureInput) (st0 : StoreRec),
      Structured (configureRun env input st0).result (·.success) (·.error)) ∧
    (∀ (env : DeployEnv) (input : DeployInput) (st0 : StoreRec),
      (∀ n, env.storeFault n = none) →
      Structured (deployRun env input st0).result (·.success) (·.error)) :=
  ⟨deleteRun_no_raise, updateRun_no_raise, scaleRun_no_raise,
   configureRun_no_raise, deployRun_no_raise_of_storeOk⟩

/-- C3 witness: the Provision conjunct of the amended claim applied at a
concrete fault-free environment. -/
theorem workflows_no_raise_witness :
    Structured (deployRun
      { networkOutcome := .ok "net-1", subnetOutcome := .ok "sub-1"
        vmOutcomes := fun _ => .ok "srv-1"
        pollOutcomes := fun _ _ => .ok "ACTIVE"
        storeFault := fun _ => none }
      { deployment_id := "d1", cloud_region := "region-a"
        tmpl_vm_count := some 1, param_vm_count := none }
      { status := .pending, resources := [], error := none }).result
      (·.success) (·.error) :=
  workflows_no_raise_amended.2.2.2.2 _ _ _ (fun _ => rfl)

/-- C3 counterexample: in the Provision workflow, when network creation
fails and the Store write recording `FAILED` then raises, the exception
escapes `DeploymentWorkflow.execute` (the result is a raised exception,
not a structured result). -/
theorem workflows_no_raise_cex :
    (deployRun
      { networkOutcome := .error "network create failed"
        subnetOutcome := .ok "sub-1"
        vmOutcomes := fun _ => .ok "srv-1"
        pollOutcomes := fun _ _ => .ok "ACTIVE"
        storeFault := fun n => if n = 1 then some "db down" else none }
      { deployment_id := "d1", cloud_region := "region-a"
        tmpl_vm_count := some 1, param_vm_count := none }
      { status := .pending, resources := [], error := none }).result
      = Except.error "db down" := by
  rfl

/-! ## Claim C4 machinery -/

theorem deployExcept_status_of (env : DeployEnv) (input : DeployInput)
    (w : W) (nid sid : Option String) (sids : List String) (e : String)
    (h : env.storeFault w.writeIdx = none) :
    (deployExcept env input w nid sid sids e).store.status = .failed := by
  rw [deployExcept_out, h]
  rfl

theorem deployFinish_not_caught_of (env : DeployEnv) (input : DeployInput)
    (w : W) (nid sid : String) (sids : List String)
    (h : env.storeFault w.writeIdx = none) :
    (deployFinish env input w nid sid sids).caught = false := by
  rw [deployFinish_out, h]

theorem deployRun_caught_failed (env : DeployEnv) (input : DeployInput)
    (st0 : StoreRec) (h : ∀ n, env.storeFault n = none) :
    (deployRun env input st0).caught = true →
      (deployRun env input st0).store.status = .failed := by
  simp only [deployRun, doWrite_eq, W.add, h]
  cases hn : env.networkOutcome with
  | error e => exact fun _ => deployExcept_status_of _ _ _ _ _ _ _ (h _)
  | ok nid =>
    simp only [hn]
    cases hs : env.subnetOutcome with
    | error e => exact fun _ => deployExcept_status_of _ _ _ _ _ _ _ (h _)
    | ok sid =>
      simp only [hs]
      cases hg : gatherE ((List.range input.vmCount).map env.vmOutcomes) with
      | error e => exact fun _ => deployExcept_status_of _ _ _ _ _ _ _ (h _)
      | ok sids =>
        simp only [hg]
        cases hp : (pollPhase env sids).1 with
        | error e => exact fun _ => deployExcept_status_of _ _ _ _ _ _ _ (h _)
        | ok u =>
          simp only [hp]
          intro hc
          rw [deployFinish_not_caught_of _ _ _ _ _ _ (h _)] at hc
          exact nomatch hc

theorem deleteExcept_status_of (env : DeleteEnv) (input : DeleteInput)
    (w : W) (e : String) (h : env.storeFault w.writeIdx = none) :
    (deleteExcept env input w e).store.status = .failed := by
  rw [deleteExcept_out, h]
  rfl

theorem deleteFinish_not_caught_of (env : DeleteEnv) (input : DeleteInput)
    (w : W) (h : env.storeFault w.writeIdx = none) :
    (deleteFinish env input w).caught = false := by
  rw [deleteFinish_out, h]

theorem deleteRun_caught_failed (env : DeleteEnv) (input : DeleteInput)
    (st0 : StoreRec) (h : ∀ n, env.storeFault n = none) :
    (deleteRun env input st0).caught = true →
      (deleteRun env input st0).store.status = .failed := by
  simp only [deleteRun, doWrite_eq, W.add, h]
  cases hg : gatherE ((List.range input.resources.serverIds.length).map
      (fun i => match env.deleteVmOutcomes i with
                | some m => Except.error m
                | none => Except.ok true)) with
  | error e => exact fun _ => deleteExcept_status_of _ _ _ _ (h _)
  | ok l =>
    simp only [hg]
    cases ht : input.resources.truthy "network_id" with
    | false =>
      simp only [ht, Bool.false_eq_true, if_false]
      intro hc
      rw [deleteFinish_not_caught_of _ _ _ (h _)] at hc
      exact nomatch hc
    | true =>
      simp only [ht, if_true]
      cases hno : env.deleteNetOutcome with
      | none =>
        simp only [hno]
        intro hc
        rw [deleteFinish_not_caught_of _ _ _ (h _)] at hc
        exact nomatch hc
      | some e =>
        simp only [hno]
        exact fun _ => deleteExcept_status_of _ _ _ _ (h _)

theorem updateExcept_status_of (env : UpdateEnv) (input : UpdateInput)
    (w : W) (e : String) (h : env.storeFault w.writeIdx = none) :
    (updateExcept env input w e).store.status = .failed := by
  rw [updateExcept_out, h]
  rfl

theorem updateFinish_not_caught_of (env : UpdateEnv) (input : UpdateInput)
    (w : W) (updated_resources : Resc)
    (h : env.storeFault w.writeIdx = none) :
    (updateFinish env input w updated_resources).caught = false := by
  rw [updateFinish_out, h]

theorem updateRun_caught_failed (env : UpdateEnv) (input : UpdateInput)
    (st0 : StoreRec) (h : ∀ n, env.storeFault n = none) :
    (updateRun env input st0).caught = true →
      (updateRun env input st0).store.status = .failed := by
  simp only [updateRun, doWrite_eq, W.add, h]
  cases hg : gatherE ((List.range (if strTruthy input.param_flavor then
      input.current_resources.serverIds else []).length).map
      (fun i => match env.resizeOutcomes i with
                | some m => Except.error m
                | none => Except.ok true)) with
  | error e => exact fun _ => updateExcept_status_of _ _ _ _ (h _)
  | ok l =>
    simp only [hg]
    cases hd : strTruthy input.param_network_cidr
        && input.current_resources.truthy "network_id"
        && input.current_resources.truthy "subnet_id" with
    | false =>
      simp only [hd, Bool.false_eq_true, if_false]
      intro hc
      rw [updateFinish_not_caught_of _ _ _ _ (h _)] at hc
      exact nomatch hc
    | true =>
      simp only [hd, if_true]
      cases hno : env.updateNetOutcome with
      | none =>
        simp only [hno]
        intro hc
        rw [updateFinish_not_caught_of _ _ _ _ (h _)] at hc
        exact nomatch hc
      | some e =>
        simp only [hno]
        exact fun _ => updateExcept_status_of _ _ _ _ (h _)

theorem scaleRun_caught_failed (env : ScaleEnv) (input : ScaleInput)
    (st0 : StoreRec) (h : ∀ n, env.storeFault n = none) :
    (scaleRun env input st0).caught = true →
      (scaleRun env input st0).store.status = .failed := by
  simp only [scaleRun, doWrite_eq, W.add, h]
  split_ifs with hA hB hC hD
  · exact fun hc => nomatch hc
  · exact fun hc => nomatch hc
  · exact fun hc => nomatch hc
  · cases hsel : scaleInSelect input.resources.serverIds
        (input.current_count - input.target_count) input.min_count with
    | error msg =>
      simp only [hsel]
      exact fun hc => nomatch hc
    | ok removed =>
      simp only [hsel]
      exact fun hc => nomatch hc
  · exact fun hc => nomatch hc

theorem configureExcept_status_of (env : ConfigureEnv)
    (input : ConfigureInput) (w : W) (e : String)
    (h : env.storeFault w.writeIdx = none) :
    (configureExcept env input w e).store.status = .failed := by
  rw [configureExcept_out, h]
  rfl

theorem configureRun_caught_failed (env : ConfigureEnv)
    (input : ConfigureInput) (st0 : StoreRec)
    (h : ∀ n, env.storeFault n = none) :
    (configureRun env input st0).caught = true →
      (configureRun env input st0).store.status = .failed := by
  simp only [configureRun, doWrite_eq, W.add, h]
  split_ifs with hE
  · exact fun hc => nomatch hc
  · cases ha : env.ansibleOutcome with
    | error e =>
      simp only [ha]
      exact fun _ => configureExcept_status_of _ _ _ _ (h _)
    | ok res =>
      simp only [ha]
      by_cases hst : res.status = .successful
      · simp only [hst, if_true]
        exact fun _ => configureExcept_status_of _ _ _ _ (h _)
      · simp only [hst, if_false]
        exact fun hc => nomatch hc

/-! ## Claim C4 -/

/-- C4, amended: for every workflow, in every branch where the routine
caught a failure, PROVIDED the Store status writes succeed, the deployment
record's status after the routine returns is `FAILED` — in particular never
`IN_PROGRESS`.  When the terminal-status write itself raises (swallowed by
the routine), the record keeps whatever was last written, which can be
`IN_PROGRESS` (see the counterexample). -/
theorem caught_failure_terminal_status_amended :
    (∀ (env : DeployEnv) (input : DeployInput) (st0 : StoreRec),
      (∀ n, env.storeFault n = none) →
      (deployRun env input st0).caught = true →
      (deployRun env input st0).store.status = .failed) ∧
    (∀ (env : DeleteEnv) (input : DeleteInput) (st0 : StoreRec),
      (∀ n, env.storeFault n = none) →
      (deleteRun env input st0).caught = true →
      (deleteRun env input st0).store.status = .failed) ∧
    (∀ (env : UpdateEnv) (input : UpdateInput) (st0 : StoreRec),
      (∀ n, env.storeFault n = none) →
      (updateRun env input st0).caught = true →
      (updateRun env input st0).store.status = .failed) ∧
    (∀ (env : ScaleEnv) (input : ScaleInput) (st0 : StoreRec),
      (∀ n, env.storeFault n = none) →
      (scaleRun env input st0).caught = true →
      (scaleRun env input st0).store.status = .failed) ∧
    (∀ (env : ConfigureEnv) (input : ConfigureInput) (st0 : StoreRec),
      (∀ n, env.storeFault n = none) →
      (configureRun env input st0).caught = true →
      (configureRun env input st0).store.status = .failed) :=
  ⟨deployRun_caught_failed, deleteRun_caught_failed, updateRun_caught_failed,
   scaleRun_caught_failed, configureRun_caught_failed⟩

/-- C4 witness: the Delete conjunct at a concrete run in which a server
deletion raises while the Store accepts every write: the failure is caught
and the record ends up `FAILED`. -/
theorem caught_failure_terminal_status_witness :
    (deleteRun
      { deleteVmOutcomes := fun _ => some "server delete boom"
        deleteNetOutcome := none
        cleanupVmOk := fun _ => true, cleanupNetOk := true
        storeFault := fun _ => none }
      { deployment_id := "d1", cloud_region := "region-a"
        resources := [("server_ids", RVal.strList ["srv-a"]),
                      ("network_id", RVal.str "net-1")] }
      { status := .completed
        resources := [("server_ids", RVal.strList ["srv-a"]),
                      ("network_id", RVal.str "net-1")]
        error := none }).caught = true ∧
    (deleteRun
      { deleteVmOutcomes := fun _ => some "server delete boom"
        deleteNetOutcome := none
        cleanupVmOk := fun _ => true, cleanupNetOk := true
        storeFault := fun _ => none }
      { deployment_id := "d1", cloud_region := "region-a"
        resources := [("server_ids", RVal.strList ["srv-a"]),
                      ("network_id", RVal.str "net-1")] }
      { status := .completed
        resources := [("server_ids", RVal.strList ["srv-a"]),
                      ("network_id", RVal.str "net-1")]
        error := none }).store.status = .failed :=
  ⟨rfl, caught_failure_terminal_status_amended.2.1 _ _ _ (fun _ => rfl) rfl⟩

/-- C4 counterexample: a Delete run in which the `IN_PROGRESS` write
succeeds, a server deletion then raises, and the Store write recording
`FAILED` itself raises (caught and swallowed by the routine): the routine
returns with the record still at `IN_PROGRESS`. -/
theorem caught_failure_terminal_status_cex :
    (deleteRun
      { deleteVmOutcomes := fun _ => some "server delete boom"
        deleteNetOutcome := none
        cleanupVmOk := fun _ => true, cleanupNetOk := true
        storeFault := fun n => if n = 1 then some "db down" else none }
      { deployment_id := "d1", cloud_region := "region-a"
        resources := [("server_ids", RVal.strList ["srv-a"]),
                      ("network_id", RVal.str "net-1")] }
      { status := .completed
        resources := [("server_ids", RVal.strList ["srv-a"]),
                      ("network_id", RVal.str "net-1")]
        error := none }).caught = true ∧
    (deleteRun
      { deleteVmOutcomes := fun _ => some "server delete boom"
        deleteNetOutcome := none
        cleanupVmOk := fun _ => true, cleanupNetOk := true
        storeFault := fun n => if n = 1 then some "db down" else none }
      { deployment_id := "d1", cloud_region := "region-a"
        resources := [("server_ids", RVal.strList ["srv-a"]),
                      ("network_id", RVal.str "net-1")] }
      { status := .completed
        resources := [("server_ids", RVal.strList ["srv-a"]),
                      ("network_id", RVal.str "net-1")]
        error := none }).store.status = .in_progress :=
  ⟨rfl, rfl⟩

/-! ## Claim C7 -/

/-- C7, confirmed: when the input resources carry no server ids, the
Configure workflow returns synchronously a failure result whose error is
the `"No VMs found in deployment resources"` message, with an EMPTY event
trace (no address resolution, no playbook run, no Store write) and the
Store record untouched. -/
theorem configure_empty_vm_guard (env : ConfigureEnv)
    (input : ConfigureInput) (st0 : StoreRec)
    (h : input.resources.serverIds = []) :
    (configureRun env input st0).result =
      Except.ok { success := false, deployment_id := input.deployment_id
                  execution_id := none, configured_hosts := []
                  error := some "No VMs found in deployment resources" } ∧
    (configureRun env input st0).trace = [] ∧
    (configureRun env input st0).store = st0 ∧
    (configureRun env input st0).caught = false := by
  simp [configureRun, h]

/-- C7 witness: the guard at a concrete input whose resources mapping has
no `server_ids` key. -/
theorem configure_empty_vm_guard_witness :
    (configureRun
      { ansibleOutcome := .error "never called"
        storeFault := fun _ => none }
      { deployment_id := "d1", playbook_path := "site.yml", limit := none
        resources := [("network_id", RVal.str "net-1")] }
      { status := .completed, resources := [], error := none }).trace = [] :=
  (configure_empty_vm_guard
    { ansibleOutcome := .error "never called"
      storeFault := fun _ => none }
    { deployment_id := "d1", playbook_path := "site.yml", limit := none
      resources := [("network_id", RVal.str "net-1")] }
    { status := .completed, resources := [], error := none } rfl).2.1

/-! ## Claim C10 -/

theorem updateExcept_c10 (env : UpdateEnv) (input : UpdateInput) (w : W)
    (e : String) :
    ∀ r, (updateExcept env input w e).result = Except.ok r →
      (r.success = false → r.updated_resources = []) ∧
      (r.success = true →
        Event.writeStatus .completed (some r.updated_resources) none true ∈
          (updateExcept env input w e).trace) := by
  rw [updateExcept_out]
  intro r hr
  injection hr with h2
  subst h2
  exact ⟨fun _ => rfl, fun hs => nomatch hs⟩

theorem updateFinish_c10 (env : UpdateEnv) (input : UpdateInput) (w : W)
    (u : Resc) :
    ∀ r, (updateFinish env input w u).result = Except.ok r →
      (r.success = false → r.updated_resources = []) ∧
      (r.success = true →
        Event.writeStatus .completed (some r.updated_resources) none true ∈
          (updateFinish env input w u).trace) := by
  rw [updateFinish_out]
  cases hh : env.storeFault w.writeIdx
  case none =>
    intro r hr
    injection hr with h2
    subst h2
    exact ⟨(fun hs => nomatch hs), fun _ => by simp⟩
  case some m =>
    exact updateExcept_c10 env input _ m

/-- C10, confirmed: whenever `UpdateWorkflow.execute` returns with
`success = false`, the result's `updated_resources` is the empty mapping;
on success it equals the merged mapping carried by the `COMPLETED` Store
write found in the trace. -/
theorem update_result_resources (env : UpdateEnv) (input : UpdateInput)
    (st0 : StoreRec) :
    ∀ r, (updateRun env input st0).result = Except.ok r →
      (r.success = false → r.updated_resources = []) ∧
      (r.success = true →
        Event.writeStatus .completed (some r.updated_resources) none true ∈
          (updateRun env input st0).trace) := by
  simp only [updateRun, doWrite_eq, W.add]
  cases h0 : env.storeFault 0 with
  | some m =>
    simp only [h0]
    exact updateExcept_c10 _ _ _ _
  | none =>
    simp only [h0]
    cases hg : gatherE ((List.range (if strTruthy input.param_flavor then
        input.current_resources.serverIds else []).length).map
        (fun i => match env.resizeOutcomes i with
                  | some m => Except.error m
                  | none => Except.ok true)) with
    | error e =>
      simp only [hg]
      exact updateExcept_c10 _ _ _ _
    | ok l =>
      simp only [hg]
      cases hd : strTruthy input.param_network_cidr
          && input.current_resources.truthy "network_id"
          && input.current_resources.truthy "subnet_id" with
      | false =>
        simp only [hd, Bool.false_eq_true, if_false]
        exact updateFinish_c10 _ _ _ _
      | true =>
        simp only [hd, if_true]
        cases hno : env.updateNetOutcome with
        | none =>
          simp only [hno]
          exact updateFinish_c10 _ _ _ _
        | some e =>
          simp only [hno]
          exact updateExcept_c10 _ _ _ _

/-- C10 witness: a concrete failing run (the resize activity raises)
returns `success = false` with empty `updated_resources`. -/
theorem update_result_resources_witness :
    ((updateRun
      { resizeOutcomes := fun _ => some "resize boom"
        updateNetOutcome := none
        storeFault := fun _ => none }
      { deployment_id := "d1", cloud_region := "region-a"
        current_resources := [("server_ids", RVal.strList ["srv-a"]),
                              ("network_id", RVal.str "net-1")]
        param_flavor := some "m1.large", param_network_cidr := none }
      { status := .completed, resources := [], error := none }).result =
      Except.ok { deployment_id := "d1", success := false
                  updated_resources := [], error := some "resize boom" }) ∧
    ([] : Resc) = [] :=
  ⟨rfl, (update_result_resources
    { resizeOutcomes := fun _ => some "resize boom"
      updateNetOutcome := none
      storeFault := fun _ => none }
    { deployment_id := "d1", cloud_region := "region-a"
      current_resources := [("server_ids", RVal.strList ["srv-a"]),
                            ("network_id", RVal.str "net-1")]
      param_flavor := some "m1.large", param_network_cidr := none }
    { status := .completed, resources := [], error := none }
    { deployment_id := "d1", success := false
      updated_resources := [], error := some "resize boom" } rfl).1 rfl⟩

/-! ## Claim C8 -/

theorem updateExcept_frame (env : UpdateEnv) (input : UpdateInput) (w : W)
    (e : String) (res : Resc) :
    ∀ r, (updateExcept env input w e).result = Except.ok r →
      r.success = true →
      r.updated_resources = res ∧
      (updateExcept env input w e).store.resources = res := by
  rw [updateExcept_out]
  intro r hr
  injection hr with h2
  subst h2
  exact fun hs => nomatch hs

theorem updateExcept_not_success (env : UpdateEnv) (input : UpdateInput)
    (w : W) (e : String) :
    ∀ r, (updateExcept env input w e).result = Except.ok r →
      r.success = false := by
  rw [updateExcept_out]
  intro r hr
  injection hr with h2
  subst h2
  rfl

theorem updateFinish_frame (env : UpdateEnv) (input : UpdateInput) (w : W)
    (res : Resc) :
    ∀ r, (updateFinish env input w res).result = Except.ok r →
      r.success = true →
      r.updated_resources = res ∧
      (updateFinish env input w res).store.resources = res := by
  rw [updateFinish_out]
  cases hh : env.storeFault w.writeIdx
  case none =>
    intro r hr _
    injection hr with h2
    subst h2
    exact ⟨rfl, rfl⟩
  case some m =>
    intro r hr hs
    have hne := updateExcept_not_success env input
      { trace := w.trace ++ [.writeStatus .completed (some res) none false]
        store := w.store, writeIdx := w.writeIdx + 1 } m r hr
    rw [hs] at hne
    exact nomatch hne

/-- C8, confirmed: an Update run whose parameters carry a (truthy) `flavor`
but no (truthy) `network_cidr`, when it succeeds, writes to the Store and
returns a resources mapping EQUAL (same association list, every key) to the
pre-update `current_resources`. -/
theorem update_flavor_only_frame (env : UpdateEnv) (input : UpdateInput)
    (st0 : StoreRec)
    (_hf : strTruthy input.param_flavor = true)
    (hc : strTruthy input.param_network_cidr = false) :
    ∀ r, (updateRun env input st0).result = Except.ok r →
      r.success = true →
      r.updated_resources = input.current_resources ∧
      (updateRun env input st0).store.resources = input.current_resources := by
  simp only [updateRun, doWrite_eq, W.add, hc, Bool.false_and,
    Bool.false_eq_true, if_false]
  cases h0 : env.storeFault 0 with
  | some m =>
    simp only [h0]
    exact updateExcept_frame _ _ _ _ _
  | none =>
    simp only [h0]
    cases hg : gatherE ((List.range (if strTruthy input.param_flavor then
        input.current_resources.serverIds else []).length).map
        (fun i => match env.resizeOutcomes i with
                  | some m => Except.error m
                  | none => Except.ok true)) with
    | error e =>
      simp only [hg]
      exact updateExcept_frame _ _ _ _ _
    | ok l =>
      simp only [hg]
      exact updateFinish_frame _ _ _ _

/-- C8 witness: a concrete flavor-only update over a resources mapping with
network, subnet, server and custom keys: the stored mapping after the run
is identical to the input mapping. -/
theorem update_flavor_only_frame_witness :
    (updateRun
      { resizeOutcomes := fun _ => none
        updateNetOutcome := none
        storeFault := fun _ => none }
      { deployment_id := "d1", cloud_region := "region-a"
        current_resources := [("network_id", RVal.str "net-1"),
                              ("subnet_id", RVal.str "sub-1"),
                              ("server_ids", RVal.strList ["srv-a", "srv-b"]),
                              ("custom", RVal.str "x")]
        param_flavor := some "m1.large", param_network_cidr := none }
      { status := .completed, resources := [], error := none }).store.resources
      = [("network_id", RVal.str "net-1"),
         ("subnet_id", RVal.str "sub-1"),
         ("server_ids", RVal.strList ["srv-a", "srv-b"]),
         ("custom", RVal.str "x")] :=
  (update_flavor_only_frame
    { resizeOutcomes := fun _ => none
      updateNetOutcome := none
      storeFault := fun _ => none }
    { deployment_id := "d1", cloud_region := "region-a"
      current_resources := [("network_id", RVal.str "net-1"),
                            ("subnet_id", RVal.str "sub-1"),
                            ("server_ids", RVal.strList ["srv-a", "srv-b"]),
                            ("custom", RVal.str "x")]
      param_flavor := some "m1.large", param_network_cidr := none }
    { status := .completed, resources := [], error := none }
    rfl rfl
    { deployment_id := "d1", success := true
      updated_resources := [("network_id", RVal.str "net-1"),
                            ("subnet_id", RVal.str "sub-1"),
                            ("server_ids", RVal.strList ["srv-a", "srv-b"]),
                            ("custom", RVal.str "x")]
      error := none } rfl rfl).2

/-! ## Claim C5 -/

/-- C5, amended: a successful scale-out run from `current` to
`target > current` (bounds satisfied, Store writes succeeding) generates
exactly `target - current` new server ids, reports exactly those ids in
`new_server_ids`, and sets status `COMPLETED` — but the `COMPLETED` Store
write carries NO resources: the stored record keeps its previous
`resources` (in particular `server_ids`) unchanged; the new ids are not
appended. -/
theorem scale_out_amended (env : ScaleEnv) (input : ScaleInput)
    (st0 : StoreRec)
    (hmin : input.min_count ≤ input.target_count)
    (hmax : ∀ mx, input.max_count = some mx → input.target_count ≤ mx)
    (hgt : input.current_count < input.target_count)
    (hstore : ∀ n, env.storeFault n = none) :
    (scaleRun env input st0).result = Except.ok
      { success := true, deployment_id := input.deployment_id
        initial_count := input.current_count
        final_count := input.target_count
        operation := "scale-out"
        new_server_ids := scaleOutIds env input.cloud_region
          (input.target_count - input.current_count)
        removed_server_ids := [], error := none } ∧
    (scaleOutIds env input.cloud_region
      (input.target_count - input.current_count)).length =
      input.target_count - input.current_count ∧
    (scaleRun env input st0).store = { st0 with status := .completed } ∧
    (scaleRun env input st0).trace =
      [.remoteScaleOut (input.target_count - input.current_count),
       .writeStatus .completed none none true] := by
  have h1 : ¬ input.target_count < input.min_count := by omega
  have h2 : (match input.max_count with
             | some mx => decide (mx < input.target_count)
             | none => false) = false := by
    cases hm : input.max_count with
    | none => rfl
    | some mx =>
      have := hmax mx hm
      simp
      omega
  simp only [scaleRun, doWrite_eq, W.add, hstore, h1, if_false, h2,
    Bool.false_eq_true, hgt, if_true]
  simp [scaleOutIds, StoreRec.apply]

/-- C5 witness: the amended theorem at a concrete 2-to-4 scale-out. -/
theorem scale_out_amended_witness :
    (scaleRun
      { hashF := fun s => if s = "region-a-0" then 1 else 2
        storeFault := fun _ => none }
      { deployment_id := "d1", current_count := 2, target_count := 4
        min_count := 1, max_count := some 10
        resources := [("server_ids", RVal.strList ["srv-a", "srv-b"]),
                      ("network_id", RVal.str "net-1")]
        cloud_region := "region-a" }
      { status := .completed
        resources := [("server_ids", RVal.strList ["srv-a", "srv-b"])]
        error := none }).store =
      { status := .completed
        resources := [("server_ids", RVal.strList ["srv-a", "srv-b"])]
        error := none } :=
  (scale_out_amended
    { hashF := fun s => if s = "region-a-0" then 1 else 2
      storeFault := fun _ => none }
    { deployment_id := "d1", current_count := 2, target_count := 4
      min_count := 1, max_count := some 10
      resources := [("server_ids", RVal.strList ["srv-a", "srv-b"]),
                    ("network_id", RVal.str "net-1")]
      cloud_region := "region-a" }
    { status := .completed
      resources := [("server_ids", RVal.strList ["srv-a", "srv-b"])]
      error := none }
    (by decide) (fun mx hm => by injection hm with h2; subst h2; decide)
    (by decide) (fun _ => rfl)).2.2.1

/-- C5 counterexample: scaling 2 to 4 succeeds and reports two new server
ids, yet the stored `server_ids` list after the run is still the original
two ids — the new ids were NOT appended to the Store record. -/
theorem scale_out_cex :
    (scaleRun
      { hashF := fun s => if s = "region-a-0" then 1 else 2
        storeFault := fun _ => none }
      { deployment_id := "d1", current_count := 2, target_count := 4
        min_count := 1, max_count := some 10
        resources := [("server_ids", RVal.strList ["srv-a", "srv-b"]),
                      ("network_id", RVal.str "net-1")]
        cloud_region := "region-a" }
      { status := .completed
        resources := [("server_ids", RVal.strList ["srv-a", "srv-b"])]
        error := none }).result = Except.ok
      { success := true, deployment_id := "d1"
        initial_count := 2, final_count := 4, operation := "scale-out"
        new_server_ids := ["server-1", "server-2"]
        removed_server_ids := [], error := none } ∧
    Resc.serverIds (scaleRun
      { hashF := fun s => if s = "region-a-0" then 1 else 2
        storeFault := fun _ => none }
      { deployment_id := "d1", current_count := 2, target_count := 4
        min_count := 1, max_count := some 10
        resources := [("server_ids", RVal.strList ["srv-a", "srv-b"]),
                      ("network_id", RVal.str "net-1")]
        cloud_region := "region-a" }
      { status := .completed
        resources := [("server_ids", RVal.strList ["srv-a", "srv-b"])]
        error := none }).store.resources = ["srv-a", "srv-b"] ∧
    (["srv-a", "srv-b"] : List String) ≠
      ["srv-a", "srv-b", "server-1", "server-2"] := by
  refine ⟨rfl, rfl, by decide⟩

/-! ## Claim C6 machinery -/

theorem cleanupServerTargets_append (t1 t2 : List Event) :
    cleanupServerTargets (t1 ++ t2) =
      cleanupServerTargets t1 ++ cleanupServerTargets t2 :=
  List.filterMap_append t1 t2 _

theorem cleanupNetworkTargets_append (t1 t2 : List Event) :
    cleanupNetworkTargets (t1 ++ t2) =
      cleanupNetworkTargets t1 ++ cleanupNetworkTargets t2 :=
  List.filterMap_append t1 t2 _

theorem cleanupServerTargets_cleanupEvents (env : DeleteEnv) (res : Resc) :
    cleanupServerTargets (cleanupEvents env res) = res.serverIds := by
  unfold cleanupEvents cleanupServerTargets
  rw [List.filterMap_append]
  have h1 : List.filterMap svExtract ((res.serverIds.zip
      (List.range res.serverIds.length)).map
      (fun p => Event.cleanupDeleteServer p.1 (env.cleanupVmOk p.2))) =
      (res.serverIds.zip (List.range res.serverIds.length)).map (·.1) := by
    induction res.serverIds.zip (List.range res.serverIds.length) with
    | nil => rfl
    | cons p rest ih => simp [svExtract] at ih ⊢; exact ih
  rw [h1, List.map_fst_zip _ _ (by simp)]
  split_ifs <;> simp [svExtract]

theorem cleanupNetworkTargets_cleanupEvents (env : DeleteEnv) (res : Resc) :
    cleanupNetworkTargets (cleanupEvents env res) =
      (if res.truthy "network_id" then [res.getStr "network_id"]
       else []) := by
  unfold cleanupEvents cleanupNetworkTargets
  rw [List.filterMap_append]
  have h1 : List.filterMap netExtract ((res.serverIds.zip
      (List.range res.serverIds.length)).map
      (fun p => Event.cleanupDeleteServer p.1 (env.cleanupVmOk p.2))) =
      ([] : List String) := by
    induction res.serverIds.zip (List.range res.serverIds.length) with
    | nil => rfl
    | cons p rest ih => simp [netExtract] at ih ⊢
  rw [h1]
  split_ifs <;> simp [netExtract]

theorem cleanupServerTargets_remoteDeletes (sids : List String) :
    cleanupServerTargets (sids.map Event.remoteDeleteServer) = [] := by
  induction sids with
  | nil => rfl
  | cons s rest ih => simp [cleanupServerTargets, svExtract] at ih ⊢

theorem cleanupNetworkTargets_remoteDeletes (sids : List String) :
    cleanupNetworkTargets (sids.map Event.remoteDeleteServer) = [] := by
  induction sids with
  | nil => rfl
  | cons s rest ih => simp [cleanupNetworkTargets, netExtract] at ih ⊢

theorem deleteExcept_c6 (env : DeleteEnv) (input : DeleteInput) (w : W)
    (e : String) (nt : List String)
    (hws : cleanupServerTargets w.trace = [])
    (hwn : cleanupNetworkTargets w.trace = [])
    (hnt : (if input.resources.truthy "network_id" then
      [input.resources.getStr "network_id"] else []) = nt) :
    ∃ m b,
      (deleteExcept env input w e).result = Except.ok
        { deployment_id := input.deployment_id, success := false
          error := some m } ∧
      Event.writeStatus .failed none
          (some { message := m, phase := some "deletion" }) b ∈
        (deleteExcept env input w e).trace ∧
      cleanupServerTargets (deleteExcept env input w e).trace =
        input.resources.serverIds ∧
      cleanupNetworkTargets (deleteExcept env input w e).trace = nt := by
  rw [deleteExcept_out]
  refine ⟨e, (env.storeFault w.writeIdx).isNone, rfl, by simp, ?_, ?_⟩
  · rw [cleanupServerTargets_append, cleanupServerTargets_append, hws,
      cleanupServerTargets_cleanupEvents]
    simp [cleanupServerTargets, svExtract]
  · rw [cleanupNetworkTargets_append, cleanupNetworkTargets_append, hwn,
      cleanupNetworkTargets_cleanupEvents, hnt]
    simp [cleanupNetworkTargets, netExtract]

theorem deleteFinish_c6 (env : DeleteEnv) (input : DeleteInput) (w : W)
    (nt : List String)
    (hws : cleanupServerTargets w.trace = [])
    (hwn : cleanupNetworkTargets w.trace = [])
    (hnt : (if input.resources.truthy "network_id" then
      [input.resources.getStr "network_id"] else []) = nt) :
    (deleteFinish env input w).caught = true →
    ∃ m b,
      (deleteFinish env input w).result = Except.ok
        { deployment_id := input.deployment_id, success := false
          error := some m } ∧
      Event.writeStatus .failed none
          (some { message := m, phase := some "deletion" }) b ∈
        (deleteFinish env input w).trace ∧
      cleanupServerTargets (deleteFinish env input w).trace =
        input.resources.serverIds ∧
      cleanupNetworkTargets (deleteFinish env input w).trace = nt := by
  rw [deleteFinish_out]
  cases hf : env.storeFault w.writeIdx
  case none =>
    intro hc
    exact nomatch hc
  case some m =>
    intro _
    exact deleteExcept_c6 env input
      { trace := w.trace ++ [.writeStatus .deleted none none false]
        store := w.store, writeIdx := w.writeIdx + 1 } m nt
      (by rw [cleanupServerTargets_append, hws]
          simp [cleanupServerTargets, svExtract])
      (by rw [cleanupNetworkTargets_append, hwn]
          simp [cleanupNetworkTargets, netExtract])
      hnt

theorem deleteExcept_result (env : DeleteEnv) (input : DeleteInput) (w : W)
    (e : String) :
    (deleteExcept env input w e).result = Except.ok
      { deployment_id := input.deployment_id, success := false
        error := some e } := by
  rw [deleteExcept_out]

theorem deleteFinish_result (env : DeleteEnv) (input : DeleteInput)
    (w : W) :
    (deleteFinish env input w).result =
      (match env.storeFault w.writeIdx with
       | none => Except.ok { deployment_id := input.deployment_id
                             success := true, error := none }
       | some m => Except.ok { deployment_id := input.deployment_id
                               success := false, error := some m }) := by
  rw [deleteFinish_out]
  cases env.storeFault w.writeIdx
  · rfl
  · exact deleteExcept_result _ _ _ _

/-- C6, confirmed: whenever a Delete run catches a failure, best-effort
cleanup is attempted against the ORIGINAL full resource set (every listed
server id, and the network id when present), a `FAILED` Store write with
`{message, phase: "deletion"}` carrying the triggering message is issued,
and the returned result's error is that triggering message; moreover the
returned result does not depend on the per-resource cleanup outcomes. -/
theorem delete_failure_cleanup (env : DeleteEnv) (input : DeleteInput)
    (st0 : StoreRec) :
    ((deleteRun env input st0).caught = true →
      ∃ m b,
        (deleteRun env input st0).result = Except.ok
          { deployment_id := input.deployment_id, success := false
            error := some m } ∧
        Event.writeStatus .failed none
            (some { message := m, phase := some "deletion" }) b ∈
          (deleteRun env input st0).trace ∧
        cleanupServerTargets (deleteRun env input st0).trace =
          input.resources.serverIds ∧
        cleanupNetworkTargets (deleteRun env input st0).trace =
          (if input.resources.truthy "network_id" then
            [input.resources.getStr "network_id"] else [])) ∧
    (∀ f g b c,
      (deleteRun { env with cleanupVmOk := f, cleanupNetOk := b }
        input st0).result =
      (deleteRun { env with cleanupVmOk := g, cleanupNetOk := c }
        input st0).result) := by
  constructor
  · simp only [deleteRun, doWrite_eq, W.add]
    cases h0 : env.storeFault 0 with
    | some m =>
      simp only [h0]
      intro _
      exact deleteExcept_c6 _ _ _ _ _
        (by simp [cleanupServerTargets, svExtract])
        (by simp [cleanupNetworkTargets, netExtract]) rfl
    | none =>
      simp only [h0]
      cases hg : gatherE ((List.range input.resources.serverIds.length).map
          (fun i => match env.deleteVmOutcomes i with
                    | some m => Except.error m
                    | none => Except.ok true)) with
      | error e =>
        simp only [hg]
        intro _
        exact deleteExcept_c6 _ _ _ _ _
          (by simp only [cleanupServerTargets_append,
                cleanupServerTargets_remoteDeletes]
              simp [cleanupServerTargets, svExtract])
          (by simp only [cleanupNetworkTargets_append,
                cleanupNetworkTargets_remoteDeletes]
              simp [cleanupNetworkTargets, netExtract]) rfl
      | ok l =>
        simp only [hg]
        cases ht : input.resources.truthy "network_id" with
        | false =>
          simp only [ht, Bool.false_eq_true, if_false]
          exact deleteFinish_c6 _ _ _ _
            (by simp only [cleanupServerTargets_append,
                  cleanupServerTargets_remoteDeletes]
                simp [cleanupServerTargets, svExtract])
            (by simp only [cleanupNetworkTargets_append,
                  cleanupNetworkTargets_remoteDeletes]
                simp [cleanupNetworkTargets, netExtract])
            (by simp [ht])
        | true =>
          simp only [ht, if_true]
          cases hno : env.deleteNetOutcome with
          | none =>
            simp only [hno]
            exact deleteFinish_c6 _ _ _ _
              (by simp only [cleanupServerTargets_append,
                    cleanupServerTargets_remoteDeletes]
                  simp [cleanupServerTargets, svExtract])
              (by simp only [cleanupNetworkTargets_append,
                    cleanupNetworkTargets_remoteDeletes]
                  simp [cleanupNetworkTargets, netExtract])
              (by simp [ht])
          | some e =>
            simp only [hno]
            intro _
            exact deleteExcept_c6 _ _ _ _ _
              (by simp only [cleanupServerTargets_append,
                    cleanupServerTargets_remoteDeletes]
                  simp [cleanupServerTargets, svExtract])
              (by simp only [cleanupNetworkTargets_append,
                    cleanupNetworkTargets_remoteDeletes]
                  simp [cleanupNetworkTargets, netExtract])
              (by simp [ht])
  · intro f g b c
    simp only [deleteRun, doWrite_eq, W.add]
    cases h0 : env.storeFault 0 with
    | some m =>
      simp only [h0]
      rw [deleteExcept_result, deleteExcept_result]
    | none =>
      simp only [h0]
      cases hg : gatherE ((List.range input.resources.serverIds.length).map
          (fun i => match env.deleteVmOutcomes i with
                    | some m => Except.error m
                    | none => Except.ok true)) with
      | error e =>
        simp only [hg]
        rw [deleteExcept_result, deleteExcept_result]
      | ok l =>
        simp only [hg]
        cases ht : input.resources.truthy "network_id" with
        | false =>
          simp only [ht, Bool.false_eq_true, if_false]
          rw [deleteFinish_result, deleteFinish_result]
        | true =>
          simp only [ht, if_true]
          cases hno : env.deleteNetOutcome with
          | none =>
            simp only [hno]
            rw [deleteFinish_result, deleteFinish_result]
          | some e =>
            simp only [hno]
            rw [deleteExcept_result, deleteExcept_result]

/-- C6 witness: the theorem applied at a concrete run where the first of
two server deletions raises and every cleanup attempt itself fails — the
cleanup is still attempted over both servers and the network, and the
result carries the triggering message. -/
theorem delete_failure_cleanup_witness :
    ∃ m b,
      (deleteRun
        { deleteVmOutcomes := fun i => if i = 0 then some "delete srv-a failed"
            else none
          deleteNetOutcome := none
          cleanupVmOk := fun _ => false, cleanupNetOk := false
          storeFault := fun _ => none }
        { deployment_id := "d1", cloud_region := "region-a"
          resources := [("server_ids", RVal.strList ["srv-a", "srv-b"]),
                        ("network_id", RVal.str "net-1")] }
        { status := .completed, resources := [], error := none }).result =
        Except.ok { deployment_id := "d1", success := false
                    error := some m } ∧
      Event.writeStatus .failed none
          (some { message := m, phase := some "deletion" }) b ∈
        (deleteRun
          { deleteVmOutcomes := fun i => if i = 0 then some "delete srv-a failed"
              else none
            deleteNetOutcome := none
            cleanupVmOk := fun _ => false, cleanupNetOk := false
            storeFault := fun _ => none }
          { deployment_id := "d1", cloud_region := "region-a"
            resources := [("server_ids", RVal.strList ["srv-a", "srv-b"]),
                          ("network_id", RVal.str "net-1")] }
          { status := .completed, resources := [], error := none }).trace ∧
      cleanupServerTargets (deleteRun
          { deleteVmOutcomes := fun i => if i = 0 then some "delete srv-a failed"
              else none
            deleteNetOutcome := none
            cleanupVmOk := fun _ => false, cleanupNetOk := false
            storeFault := fun _ => none }
          { deployment_id := "d1", cloud_region := "region-a"
            resources := [("server_ids", RVal.strList ["srv-a", "srv-b"]),
                          ("network_id", RVal.str "net-1")] }
          { status := .completed, resources := [], error := none }).trace =
        Resc.serverIds [("server_ids", RVal.strList ["srv-a", "srv-b"]),
                        ("network_id", RVal.str "net-1")] ∧
      cleanupNetworkTargets (deleteRun
          { deleteVmOutcomes := fun i => if i = 0 then some "delete srv-a failed"
              else none
            deleteNetOutcome := none
            cleanupVmOk := fun _ => false, cleanupNetOk := false
            storeFault := fun _ => none }
          { deployment_id := "d1", cloud_region := "region-a"
            resources := [("server_ids", RVal.strList ["srv-a", "srv-b"]),
                          ("network_id", RVal.str "net-1")] }
          { status := .completed, resources := [], error := none }).trace =
        (if Resc.truthy [("server_ids", RVal.strList ["srv-a", "srv-b"]),
                         ("network_id", RVal.str "net-1")] "network_id" then
          [Resc.getStr [("server_ids", RVal.strList ["srv-a", "srv-b"]),
                        ("network_id", RVal.str "net-1")] "network_id"]
         else []) :=
  (delete_failure_cleanup
    { deleteVmOutcomes := fun i => if i = 0 then some "delete srv-a failed"
        else none
      deleteNetOutcome := none
      cleanupVmOk := fun _ => false, cleanupNetOk := false
      storeFault := fun _ => none }
    { deployment_id := "d1", cloud_region := "region-a"
      resources := [("server_ids", RVal.strList ["srv-a", "srv-b"]),
                    ("network_id", RVal.str "net-1")] }
    { status := .completed, resources := [], error := none }).1 rfl

/-! ## Claim C1 -/

theorem gatherE_error_of_mem {α : Type} (l : List (Except String α))
    (e : String) (h : Except.error e ∈ l) :
    ∃ m, gatherE l = Except.error m := by
  induction l with
  | nil => cases h
  | cons x rest ih =>
    cases x with
    | error e0 => exact ⟨e0, rfl⟩
    | ok a =>
      rw [List.mem_cons] at h
      rcases h with h | h
      · exact absurd h (by simp)
      · obtain ⟨m, hm⟩ := ih h
        exact ⟨m, by simp [gatherE, hm, Except.map]⟩

theorem rollbackCalls_append (t1 t2 : List Event) :
    rollbackCalls (t1 ++ t2) = rollbackCalls t1 ++ rollbackCalls t2 :=
  List.filterMap_append t1 t2 _

theorem rollbackCalls_remoteCreates (l : List Nat) :
    rollbackCalls (l.map Event.remoteCreateServer) = [] := by
  induction l with
  | nil => rfl
  | cons a r ih => simp [rollbackCalls] at ih ⊢

/-- C1, amended: if the `k`-th of the N concurrent server-creation calls
fails (network and subnet created, Store writes succeeding), the Provision
result is a failure and the compensator is invoked exactly once, with the
network id recorded by the workflow and the EMPTY list of server ids — the
failed `asyncio.gather` assigns nothing to `server_ids`, so the ids of the
sibling calls that did succeed are never handed to the compensator (and a
fortiori it never receives the full target set of N). -/
theorem provision_rollback_args_amended (env : DeployEnv)
    (input : DeployInput) (st0 : StoreRec) (nid sid : String) (k : Nat)
    (e : String)
    (hnet : env.networkOutcome = Except.ok nid)
    (hsub : env.subnetOutcome = Except.ok sid)
    (hk : k < input.vmCount)
    (hfail : env.vmOutcomes k = Except.error e)
    (hstore : ∀ n, env.storeFault n = none) :
    (∃ r, (deployRun env input st0).result = Except.ok r ∧
      r.success = false ∧ r.server_ids = []) ∧
    rollbackCalls (deployRun env input st0).trace = [(some nid, [])] := by
  obtain ⟨m, hg⟩ := gatherE_error_of_mem
    ((List.range input.vmCount).map env.vmOutcomes) e
    (List.mem_map.2 ⟨k, List.mem_range.2 hk, hfail⟩)
  simp only [deployRun, doWrite_eq, W.add, hstore, hnet, hsub, hg]
  constructor
  · refine ⟨{ deployment_id := input.deployment_id, success := false
              network_id := some nid, subnet_id := some sid
              server_ids := [], error := some m }, ?_, rfl, rfl⟩
    rw [deployExcept_out]
    simp [hstore]
  · rw [deployExcept_out]
    simp only [rollbackCalls_append, rollbackCalls_remoteCreates]
    simp [rollbackCalls]

/-- C1 witness: the amended theorem at a concrete environment where the
second of three creations fails. -/
theorem provision_rollback_args_witness :
    rollbackCalls (deployRun
      { networkOutcome := .ok "net-1", subnetOutcome := .ok "sub-1"
        vmOutcomes := fun i => if i = 1 then .error "vm creation failed"
          else .ok ("srv-" ++ toString i)
        pollOutcomes := fun _ _ => .ok "ACTIVE"
        storeFault := fun _ => none }
      { deployment_id := "d1", cloud_region := "region-a"
        tmpl_vm_count := some 3, param_vm_count := none }
      { status := .pending, resources := [], error := none }).trace =
      [(some "net-1", [])] :=
  (provision_rollback_args_amended
    { networkOutcome := .ok "net-1", subnetOutcome := .ok "sub-1"
      vmOutcomes := fun i => if i = 1 then .error "vm creation failed"
        else .ok ("srv-" ++ toString i)
      pollOutcomes := fun _ _ => .ok "ACTIVE"
      storeFault := fun _ => none }
    { deployment_id := "d1", cloud_region := "region-a"
      tmpl_vm_count := some 3, param_vm_count := none }
    { status := .pending, resources := [], error := none }
    "net-1" "sub-1" 1 "vm creation failed"
    rfl rfl (by decide) rfl (fun _ => rfl)).2

/-- C1 counterexample: with three concurrent creations of which the second
fails, the sibling calls 0 and 2 DID succeed (their outcomes are server
ids), yet the compensator is invoked with the empty server-id list — not
with the ids successfully created before the failure, as the claim
states. -/
theorem provision_rollback_args_cex :
    rollbackCalls (deployRun
      { networkOutcome := .ok "net-1", subnetOutcome := .ok "sub-1"
        vmOutcomes := fun i => if i = 1 then .error "vm creation failed"
          else .ok ("srv-" ++ toString i)
        pollOutcomes := fun _ _ => .ok "ACTIVE"
        storeFault := fun _ => none }
      { deployment_id := "d1", cloud_region := "region-a"
        tmpl_vm_count := some 3, param_vm_count := none }
      { status := .pending, resources := [], error := none }).trace =
      [(some "net-1", [])] ∧
    DeployEnv.vmOutcomes
      { networkOutcome := .ok "net-1", subnetOutcome := .ok "sub-1"
        vmOutcomes := fun i => if i = 1 then .error "vm creation failed"
          else .ok ("srv-" ++ toString i)
        pollOutcomes := fun _ _ => .ok "ACTIVE"
        storeFault := fun _ => none } 0 = Except.ok "srv-0" ∧
    DeployEnv.vmOutcomes
      { networkOutcome := .ok "net-1", subnetOutcome := .ok "sub-1"
        vmOutcomes := fun i => if i = 1 then .error "vm creation failed"
          else .ok ("srv-" ++ toString i)
        pollOutcomes := fun _ _ => .ok "ACTIVE"
        storeFault := fun _ => none } 2 = Except.ok "srv-2" ∧
    ([] : List String) ≠ ["srv-0", "srv-2"] := by
  refine ⟨rfl, rfl, rfl, by decide⟩

/-! ## Claim C9 machinery -/

theorem filter_isSleep_polls (l : List Nat) (a : Nat) :
    (l.map (Event.remotePollServer a)).filter Event.isSleep = [] := by
  induction l with
  | nil => rfl
  | cons x r ih => simp [Event.isSleep] at ih ⊢

theorem pollLoop_succ (env : DeployEnv) (sids : List String)
    (fuel attempt : Nat) :
    pollLoop env sids (fuel + 1) attempt =
      (match pollRound env sids attempt with
       | .error m => (Except.error m, 1,
           (List.range sids.length).map (Event.remotePollServer attempt))
       | .ok true => (Except.ok (), 1,
           (List.range sids.length).map (Event.remotePollServer attempt))
       | .ok false =>
         if fuel = 0 then (Except.error timeoutMsg, 1,
             (List.range sids.length).map (Event.remotePollServer attempt))
         else ((pollLoop env sids fuel (attempt + 1)).1,
               (pollLoop env sids fuel (attempt + 1)).2.1 + 1,
               (List.range sids.length).map (Event.remotePollServer attempt)
                 ++ [Event.sleep 5]
                 ++ (pollLoop env sids fuel (attempt + 1)).2.2)) := rfl

theorem pollLoop_spec (env : DeployEnv) (sids : List String) :
    ∀ fuel, 0 < fuel → ∀ attempt,
      1 ≤ (pollLoop env sids fuel attempt).2.1 ∧
      (pollLoop env sids fuel attempt).2.1 ≤ fuel ∧
      (∀ j, j + 1 < (pollLoop env sids fuel attempt).2.1 →
        pollRound env sids (attempt + j) = Except.ok false) ∧
      (match pollRound env sids
          (attempt + ((pollLoop env sids fuel attempt).2.1 - 1)) with
       | .error m => (pollLoop env sids fuel attempt).1 = Except.error m
       | .ok true => (pollLoop env sids fuel attempt).1 = Except.ok ()
       | .ok false =>
           (pollLoop env sids fuel attempt).1 = Except.error timeoutMsg ∧
           (pollLoop env sids fuel attempt).2.1 = fuel) ∧
      ((pollLoop env sids fuel attempt).2.2.filter Event.isSleep =
        List.replicate ((pollLoop env sids fuel attempt).2.1 - 1)
          (Event.sleep 5)) := by
  intro fuel
  induction fuel with
  | zero => intro h; exact absurd h (by decide)
  | succ fuel ih =>
    intro _ attempt
    rw [pollLoop_succ]
    cases hr : pollRound env sids attempt with
    | error m =>
      simp only [hr]
      refine ⟨le_refl 1, by omega, fun j hj => absurd hj (by omega), ?_, ?_⟩
      · have h0 : attempt + (1 - 1) = attempt := by omega
        rw [h0, hr]
      · simp [filter_isSleep_polls]
    | ok b =>
      cases b with
      | true =>
        simp only [hr]
        refine ⟨le_refl 1, by omega, fun j hj => absurd hj (by omega), ?_, ?_⟩
        · have h0 : attempt + (1 - 1) = attempt := by omega
          rw [h0, hr]
          trivial
        · simp [filter_isSleep_polls]
      | false =>
        by_cases hfz : fuel = 0
        · subst hfz
          simp only [hr, if_true]
          refine ⟨le_refl 1, le_refl 1,
            fun j hj => absurd hj (by omega), ?_, ?_⟩
          · have h0 : attempt + (1 - 1) = attempt := by omega
            rw [h0, hr]
            exact ⟨trivial, trivial⟩
          · simp [filter_isSleep_polls]
        · obtain ⟨ih1, ih2, ih3, ih4, ih5⟩ :=
            ih (Nat.pos_of_ne_zero hfz) (attempt + 1)
          simp only [hr, hfz, if_false]
          refine ⟨by omega, by omega, ?_, ?_, ?_⟩
          · intro j hj
            cases j with
            | zero => simpa using hr
            | succ j' =>
              have hj' : j' + 1 < (pollLoop env sids fuel (attempt + 1)).2.1 := by
                omega
              have harr : attempt + (j' + 1) = (attempt + 1) + j' := by omega
              rw [harr]
              exact ih3 j' hj'
          · have hidx : attempt +
                ((pollLoop env sids fuel (attempt + 1)).2.1 + 1 - 1) =
                (attempt + 1) +
                ((pollLoop env sids fuel (attempt + 1)).2.1 - 1) := by omega
            rw [hidx]
            cases hm : pollRound env sids ((attempt + 1) +
                ((pollLoop env sids fuel (attempt + 1)).2.1 - 1)) with
            | error m2 =>
              rw [hm] at ih4
              exact ih4
            | ok b2 =>
              cases b2 with
              | true =>
                rw [hm] at ih4
                exact ih4
              | false =>
                rw [hm] at ih4
                exact ⟨ih4.1, by omega⟩
          · rw [List.filter_append, List.filter_append,
              filter_isSleep_polls, ih5]
            have h1 : (pollLoop env sids fuel (attempt + 1)).2.1 + 1 - 1 =
                ((pollLoop env sids fuel (attempt + 1)).2.1 - 1) + 1 := by
              omega
            rw [h1, List.replicate_succ]
            simp [Event.isSleep]

theorem gatherE_ok_of_forall (l : List (Except String Bool))
    (h : ∀ x ∈ l, x = Except.ok true) :
    gatherE l = Except.ok (List.replicate l.length true) := by
  induction l with
  | nil => rfl
  | cons x rest ih =>
    have hx := h x (by simp)
    subst hx
    rw [List.length_cons, List.replicate_succ]
    simp [gatherE, ih (fun y hy => h y (by simp [hy])), Except.map]

/-- C9, confirmed: the Provision poll phase runs at least 1 and at most 60
rounds; every round before the stopping one was "not all ready, no error";
the outcome matches the stopping round (exception/ERROR → that error
immediately, all-ACTIVE → success, budget exhausted while not ready →
the timeout error with all 60 rounds used); exactly one 5-second sleep
separates consecutive rounds (stopping rounds sleep no further); an ERROR
report in a round makes that round an exception, and an all-ACTIVE round
reports ready. -/
theorem provision_poll_loop_spec (env : DeployEnv) (sids : List String) :
    1 ≤ (pollPhase env sids).2.1 ∧
    (pollPhase env sids).2.1 ≤ 60 ∧
    (∀ j, j + 1 < (pollPhase env sids).2.1 →
      pollRound env sids j = Except.ok false) ∧
    (match pollRound env sids ((pollPhase env sids).2.1 - 1) with
     | .error m => (pollPhase env sids).1 = Except.error m
     | .ok true => (pollPhase env sids).1 = Except.ok ()
     | .ok false => (pollPhase env sids).1 = Except.error timeoutMsg ∧
         (pollPhase env sids).2.1 = 60) ∧
    ((pollPhase env sids).2.2.filter Event.isSleep =
      List.replicate ((pollPhase env sids).2.1 - 1) (Event.sleep 5)) ∧
    (∀ r i, i < sids.length → env.pollOutcomes r i = Except.ok "ERROR" →
      ∃ m, pollRound env sids r = Except.error m) ∧
    (∀ r, (∀ i, i < sids.length →
        env.pollOutcomes r i = Except.ok "ACTIVE") →
      pollRound env sids r = Except.ok true) := by
  have h := pollLoop_spec env sids 60 (by decide) 0
  refine ⟨by simpa [pollPhase] using h.1, by simpa [pollPhase] using h.2.1,
    ?_, ?_, by simpa [pollPhase] using h.2.2.2.2, ?_, ?_⟩
  · intro j hj
    have := h.2.2.1 j (by simpa [pollPhase] using hj)
    simpa using this
  · have h4 := h.2.2.2.1
    simpa [pollPhase] using h4
  · intro r i hi herr
    have hmem : Except.error ("VM " ++ sids.getD i "" ++
        " entered ERROR state") ∈ (List.range sids.length).map
        (fun j => pollActivity env r j (sids.getD j "")) := by
      refine List.mem_map.2 ⟨i, List.mem_range.2 hi, ?_⟩
      simp [pollActivity, herr]
    obtain ⟨m, hm⟩ := gatherE_error_of_mem _ _ hmem
    refine ⟨m, ?_⟩
    unfold pollRound
    rw [hm]
    rfl
  · intro r hall
    have hgok := gatherE_ok_of_forall
      ((List.range sids.length).map
        (fun j => pollActivity env r j (sids.getD j ""))) ?_
    · unfold pollRound
      rw [hgok]
      simp [Except.map, List.all_eq_true, List.mem_replicate]
    · intro x hx
      obtain ⟨j, hj, hfx⟩ := List.mem_map.1 hx
      subst hfx
      simp [pollActivity, hall j (List.mem_range.1 hj)]

/-- C9 witness: a one-server environment that is not ready in round 0 and
ready in round 1 — the poll phase stops successfully after round 2 with a
single 5-second sleep. -/
theorem provision_poll_loop_spec_witness :
    (pollPhase
      { networkOutcome := .ok "net-1", subnetOutcome := .ok "sub-1"
        vmOutcomes := fun _ => .ok "srv-a"
        pollOutcomes := fun r _ => if r = 0 then .ok "BUILD"
          else .ok "ACTIVE"
        storeFault := fun _ => none } ["srv-a"]).1 = Except.ok () ∧
    (pollPhase
      { networkOutcome := .ok "net-1", subnetOutcome := .ok "sub-1"
        vmOutcomes := fun _ => .ok "srv-a"
        pollOutcomes := fun r _ => if r = 0 then .ok "BUILD"
          else .ok "ACTIVE"
        storeFault := fun _ => none } ["srv-a"]).2.1 = 2 := by
  have h := (provision_poll_loop_spec
    { networkOutcome := .ok "net-1", subnetOutcome := .ok "sub-1"
      vmOutcomes := fun _ => .ok "srv-a"
      pollOutcomes := fun r _ => if r = 0 then .ok "BUILD"
        else .ok "ACTIVE"
      storeFault := fun _ => none } ["srv-a"]).2.2.2.1
  have h2 : pollRound
      { networkOutcome := .ok "net-1", subnetOutcome := .ok "sub-1"
        vmOutcomes := fun _ => .ok "srv-a"
        pollOutcomes := fun r _ => if r = 0 then .ok "BUILD"
          else .ok "ACTIVE"
        storeFault := fun _ => none } ["srv-a"]
      ((pollPhase
        { networkOutcome := .ok "net-1", subnetOutcome := .ok "sub-1"
          vmOutcomes := fun _ => .ok "srv-a"
          pollOutcomes := fun r _ => if r = 0 then .ok "BUILD"
            else .ok "ACTIVE"
          storeFault := fun _ => none } ["srv-a"]).2.1 - 1) =
      Except.ok true := rfl
  rw [h2] at h
  exact ⟨h, rfl⟩

/-- C2 witness: the Delete conjunct of the amended claim at a concrete
fault-free run — the very first trace event is the `IN_PROGRESS` write. -/
theorem workflows_first_write_witness :
    (deleteRun
      { deleteVmOutcomes := fun _ => none
        deleteNetOutcome := none
        cleanupVmOk := fun _ => true, cleanupNetOk := true
        storeFault := fun _ => none }
      { deployment_id := "d1", cloud_region := "region-a"
        resources := [("server_ids", RVal.strList ["srv-a"])] }
      { status := .completed, resources := [], error := none }).trace.head? =
      some (.writeStatus .in_progress none none true) :=
  workflows_first_write_amended.2.1
    { deleteVmOutcomes := fun _ => none
      deleteNetOutcome := none
      cleanupVmOk := fun _ => true, cleanupNetOk := true
      storeFault := fun _ => none }
    { deployment_id := "d1", cloud_region := "region-a"
      resources := [("server_ids", RVal.strList ["srv-a"])] }
    { status := .completed, resources := [], error := none }
